import Mathlib

/-!
Verification of the Tyler encrypted-container lifecycle manager
(`backend/src/services/container.js` and the `/api/containers` routes).

The JavaScript service is shallowly embedded as a deterministic state monad
`M α := Env → St → Except JsError α × St`:

* `Env` is the external world oracle: results of `execSync` shell commands
  (keyed by command string and stdin input), of `fs.remove`, of
  `fs.readJSON`, of `fs.access`/`fs.stat`, of the SillyTavern HTTP liveness
  probe, of `spawn`, and the current clock value.  The oracle is
  time-invariant within one theorem, which suffices for every property
  proved here.
* `St` carries the in-memory service state that the source mutates: the
  `lastActivity` map, the `activityCheckInterval` handle, the set of
  filesystem paths that exist, and a trace of externally visible actions
  (used to state ordering properties).
* JavaScript `throw`/`try`/`catch` become `Except.error` plus `mtry`.
-/

namespace Tyler

abbrev JsError := String

instance {ε α : Type} [DecidableEq ε] [DecidableEq α] : DecidableEq (Except ε α) :=
  fun a b =>
    match a, b with
    | Except.ok x, Except.ok y =>
        if h : x = y then Decidable.isTrue (by rw [h])
        else Decidable.isFalse (by simp [h])
    | Except.error x, Except.error y =>
        if h : x = y then Decidable.isTrue (by rw [h])
        else Decidable.isFalse (by simp [h])
    | Except.ok _, Except.error _ => Decidable.isFalse (by simp)
    | Except.error _, Except.ok _ => Decidable.isFalse (by simp)

/-- One entry of a container config's `applications` array. -/
structure ApplicationSpec where
  appName : String
  startupCommand : String
  shutdownCommand : String
  logPath : String
  enabled : Bool
  deriving Repr, DecidableEq

/-- The persisted sidecar config (`/app/data/<name>.json`).  JavaScript
truthiness of `autoUnmountTimeout` is modelled by `Option Nat` together
with an explicit zero test at the use site. -/
structure Config where
  cfgName : String
  applications : List ApplicationSpec
  autoUnmountTimeout : Option Nat
  deriving Repr, DecidableEq

/-- The record returned by `getContainerStatus`. -/
structure ContainerStatus where
  fileExists : Bool
  mounted : Bool
  mountPoint : Option String
  config : Option Config
  applications : List ApplicationSpec
  deriving Repr, DecidableEq

/-- Externally visible actions, recorded in order of execution. -/
inductive Action where
  | exec (cmd : String)
  | remove (path : String)
  | probe
  | sleep (ms : Nat)
  | spawn (cmd : String)
  | writeJSON (path : String)
  | ensureDir (path : String)
  deriving Repr, DecidableEq

/-- The external-world oracle. -/
structure Env where
  exec : String → Option String → Except JsError String
  removeResult : String → Except JsError Unit
  readJSON : String → Except JsError Config
  accessOk : String → Bool
  statIsDir : String → Except JsError Bool
  probe : Except JsError Bool
  spawnOk : String → Except JsError Unit
  now : Nat

/-- The in-memory service state plus a filesystem abstraction and trace. -/
structure St where
  lastActivity : List (String × Nat)
  interval : Option String
  files : List String
  trace : List Action

def M (α : Type) : Type := Env → St → Except JsError α × St

def mpure {α : Type} (a : α) : M α := fun _ s => (Except.ok a, s)

def mbind {α β : Type} (x : M α) (f : α → M β) : M β := fun env s =>
  match x env s with
  | (Except.ok a, s') => f a env s'
  | (Except.error e, s') => (Except.error e, s')

instance : Monad M where
  pure := mpure
  bind := mbind

def mthrow {α : Type} (e : JsError) : M α := fun _ s => (Except.error e, s)

/-- JavaScript `try { x } catch (e) { h e }`. -/
def mtry {α : Type} (x : M α) (h : JsError → M α) : M α := fun env s =>
  match x env s with
  | (Except.ok a, s') => (Except.ok a, s')
  | (Except.error e, s') => h e env s'

/-- Run a fallible computation and reify its outcome, never propagating. -/
def attempt {α : Type} (x : M α) : M (Except JsError α) := fun env s =>
  match x env s with
  | (Except.ok a, s') => (Except.ok (Except.ok a), s')
  | (Except.error e, s') => (Except.ok (Except.error e), s')

/-- `try { x } catch (e) { /- logged only -/ }`. -/
def swallow {α : Type} (x : M α) : M Unit :=
  mtry (mbind x fun _ => mpure ()) (fun _ => mpure ())

theorem run_bind {α β : Type} (x : M α) (f : α → M β) (env : Env) (s : St) :
    (x >>= f) env s =
      match x env s with
      | (Except.ok a, s') => f a env s'
      | (Except.error e, s') => (Except.error e, s') := rfl

theorem run_pure {α : Type} (a : α) (env : Env) (s : St) :
    (pure a : M α) env s = (Except.ok a, s) := rfl

/-! ### Association-list helpers for the `lastActivity` map -/

def getEntry : List (String × Nat) → String → Option Nat
  | [], _ => none
  | (k, v) :: rest, key => if k = key then some v else getEntry rest key

def setEntry : List (String × Nat) → String → Nat → List (String × Nat)
  | [], key, v => [(key, v)]
  | (k, w) :: rest, key, v =>
      if k = key then (k, v) :: rest else (k, w) :: setEntry rest key v

def delEntry : List (String × Nat) → String → List (String × Nat)
  | [], _ => []
  | (k, w) :: rest, key =>
      if k = key then delEntry rest key else (k, w) :: delEntry rest key

/-- Insert a path without duplicating it. -/
def insertFile (p : String) (fs : List String) : List String :=
  if p ∈ fs then fs else p :: fs

/-- `bs` begins with `as` (both as character lists). -/
def leadsWith : List Char → List Char → Bool
  | [], _ => true
  | _ :: _, [] => false
  | a :: as, b :: bs => a == b && leadsWith as bs

/-- `needle` occurs as a contiguous segment of the list. -/
def hasSegment (needle : List Char) : List Char → Bool
  | [] => needle.isEmpty
  | c :: rest => leadsWith needle (c :: rest) || hasSegment needle rest

/-- JavaScript `hay.includes(needle)`. -/
def strIncludes (hay needle : String) : Bool :=
  hasSegment needle.data hay.data

/-- Drop leading ASCII whitespace from a character list. -/
def dropLeadingWs : List Char → List Char
  | [] => []
  | c :: rest =>
      if c = ' ' ∨ c = '\n' ∨ c = '\t' ∨ c = '\r' then dropLeadingWs rest
      else c :: rest

/-- JavaScript `s.trim()`. -/
def strTrim (s : String) : String :=
  String.mk (dropLeadingWs (dropLeadingWs s.data.reverse).reverse)

/-! ### Effect primitives -/

def execCmd (cmd : String) (input : Option String) : M String := fun env s =>
  (env.exec cmd input, { s with trace := s.trace ++ [Action.exec cmd] })

def probeApp : M Bool := fun env s =>
  (env.probe, { s with trace := s.trace ++ [Action.probe] })

def sleepMs (ms : Nat) : M Unit := fun _ s =>
  (Except.ok (), { s with trace := s.trace ++ [Action.sleep ms] })

def spawnApp (cmd : String) : M Unit := fun env s =>
  (env.spawnOk cmd, { s with trace := s.trace ++ [Action.spawn cmd] })

def fsPathExists (p : String) : M Bool := fun _ s =>
  (Except.ok (decide (p ∈ s.files)), s)

def fsRemove (p : String) : M Unit := fun env s =>
  match env.removeResult p with
  | Except.ok _ =>
      (Except.ok (), { s with files := s.files.erase p,
                              trace := s.trace ++ [Action.remove p] })
  | Except.error e =>
      (Except.error e, { s with trace := s.trace ++ [Action.remove p] })

def fsEnsureDir (p : String) : M Unit := fun _ s =>
  (Except.ok (), { s with files := insertFile p s.files,
                          trace := s.trace ++ [Action.ensureDir p] })

def fsWriteJSON (p : String) : M Unit := fun _ s =>
  (Except.ok (), { s with files := insertFile p s.files,
                          trace := s.trace ++ [Action.writeJSON p] })

/-- Record that a successful external command created a file (the `dd`
backing-file creation and the `git clone` directory creation). -/
def fsCreateFile (p : String) : M Unit := fun _ s =>
  (Except.ok (), { s with files := insertFile p s.files })

def fsReadJSON (p : String) : M Config := fun env s =>
  (if p ∈ s.files then env.readJSON p else Except.error ("ENOENT: " ++ p), s)

def fsAccess (p : String) : M Unit := fun env s =>
  ((if env.accessOk p then Except.ok () else Except.error "EACCES"), s)

def fsStatIsDir (p : String) : M Bool := fun env s => (env.statIsDir p, s)

def nowMs : M Nat := fun env s => (Except.ok env.now, s)

def getActivityM (name : String) : M (Option Nat) := fun _ s =>
  (Except.ok (getEntry s.lastActivity name), s)

def recordActivityM (name : String) : M Unit := fun env s =>
  (Except.ok (), { s with lastActivity := setEntry s.lastActivity name env.now })

def startActivityMonitoringM (name : String) : M Unit := fun _ s =>
  (Except.ok (), { s with interval := some name })

def stopActivityMonitoringM : M Unit := fun _ s =>
  (Except.ok (), { s with interval := none })

def deleteActivityM (name : String) : M Unit := fun _ s =>
  (Except.ok (), { s with lastActivity := delEntry s.lastActivity name })

/-! ### Paths and command strings (verbatim from the constructor and call
sites of `ContainerService`) -/

def containersPath : String := "/app/containers"
def dataPath : String := "/app/data"
def mountPath : String := "/mnt/encrypted"

def containerFilePath (name : String) : String :=
  containersPath ++ "/" ++ name ++ ".vc"

def configFilePath (name : String) : String :=
  dataPath ++ "/" ++ name ++ ".json"

def mountPointPath (name : String) : String := mountPath ++ "/" ++ name

def devName (name : String) : String := name ++ "_crypt"

def luksCloseCmd (dev : String) : String := "cryptsetup luksClose " ++ dev

def ddCmd (file : String) (sizeGB : Nat) : String :=
  "dd if=/dev/zero of=" ++ file ++ " bs=1M count=" ++ toString (sizeGB * 1024)
    ++ " status=progress"

def losetupShowCmd (file : String) : String := "losetup -f --show " ++ file

def luksFormatCmd (loopDevice : String) : String :=
  "cryptsetup luksFormat " ++ loopDevice ++ " --type luks2 --batch-mode"

def luksOpenCmd (loopDevice dev : String) : String :=
  "cryptsetup luksOpen " ++ loopDevice ++ " " ++ dev

def mkfsCmd (dev : String) : String := "mkfs.ext4 /dev/mapper/" ++ dev

def losetupDetachCmd (loopDevice : String) : String := "losetup -d " ++ loopDevice

def losetupQueryCmd (file : String) : String := "losetup -j " ++ file

def verifyCmd (file password : String) : String :=
  "echo \"" ++ password ++ "\" | cryptsetup luksOpen --test-passphrase " ++ file

def mountOpenCmd (loopDevice dev password : String) : String :=
  "echo '" ++ password ++ "' | cryptsetup luksOpen " ++ loopDevice ++ " " ++ dev
    ++ " -"

def mountFsCmd (dev mountPoint : String) : String :=
  "mount /dev/mapper/" ++ dev ++ " " ++ mountPoint

def umountCmd (mountPoint : String) : String := "umount " ++ mountPoint

def lsMapperCmd (dev : String) : String := "ls -la /dev/mapper/" ++ dev

def pgrepCmd : String := "pgrep -f \"node server.js\""

def pkillForceCmd : String := "pkill -9 -f \"node server.js\""

def gitCloneCmd (dest : String) : String :=
  "git clone https://github.com/SillyTavern/SillyTavern.git " ++ dest

/-- Parse the `losetup -j` output against the source regex
`/^(\/dev\/loop\d+):/` (anchored at the start of the output). -/
def loopDeviceOf (out : String) : Option String :=
  let pre := "/dev/loop".data
  if leadsWith pre out.data then
    let rest := out.data.drop pre.length
    let digits := rest.takeWhile Char.isDigit
    if digits ≠ [] ∧ (rest.drop digits.length).head? = some ':' then
      some (String.mk (pre ++ digits))
    else none
  else none

/-- The default config written by `createContainer`. -/
def defaultConfig (name : String) : Config :=
  { cfgName := name
    applications :=
      [{ appName := "SillyTavern"
         startupCommand :=
           "cd /mnt/encrypted/" ++ name ++ "/sillytavern && ./start.sh"
         shutdownCommand := "pkill -f \"node server.js\""
         logPath := "/mnt/encrypted/" ++ name ++ "/sillytavern/access.log"
         enabled := true }]
    autoUnmountTimeout := some 15 }

/-- `this.inactivityTimeoutMinutes` (the system default). -/
def defaultTimeoutMinutes : Nat := 15

/-! ### Result records returned by the public operations -/

structure AppResult where
  application : String
  success : Bool
  message : String
  deriving Repr, DecidableEq

structure OpResults where
  results : List AppResult
  deriving Repr, DecidableEq

structure MountResult where
  success : Bool
  message : String
  mountPoint : Option String
  deriving Repr, DecidableEq

structure UnmountResult where
  success : Bool
  message : String
  deriving Repr, DecidableEq

structure CreateResult where
  success : Bool
  message : String
  container : String
  deriving Repr, DecidableEq

structure DeleteResult where
  success : Bool
  message : String
  details : List String
  warning : Option String
  deriving Repr, DecidableEq

/-! ### Embedded service operations -/

/-- The mounted-state computation of `getContainerStatus`
(source lines 482-502): `fs.access`, `fs.stat().isDirectory()`, then the
`/dev/mapper` listing and the `mount` table inspection, every failure
collapsing to `false`. -/
def mountedCheck (name : String) : M Bool :=
  mtry (do
      fsAccess (mountPointPath name)
      let isDir ← fsStatIsDir (mountPointPath name)
      if isDir then
        mtry (do
            let _ ← execCmd (lsMapperCmd (devName name)) none
            let mountCheck ← execCmd "mount" none
            mpure (strIncludes mountCheck ("/dev/mapper/" ++ devName name)
                     && strIncludes mountCheck (mountPointPath name)))
          (fun _ => mpure false)
      else mpure false)
    (fun _ => mpure false)

/-- The configuration load of `getContainerStatus` (source lines 504-509). -/
def configLoad (name : String) : M (Option Config) :=
  mtry (do
      let c ← fsReadJSON (configFilePath name)
      mpure (some c))
    (fun _ => mpure (none : Option Config))

/-- `getContainerStatus(name)` (source lines 472-519). -/
def getContainerStatus (name : String) : M ContainerStatus := do
  let fileEx ← fsPathExists (containerFilePath name)
  if fileEx then do
    let mounted ← mountedCheck name
    let config ← configLoad name
    mpure { fileExists := true
            mounted := mounted
            mountPoint := if mounted then some (mountPointPath name) else none
            config := config
            applications := match config with
              | some c => c.applications
              | none => [] }
  else
    mpure { fileExists := false, mounted := false, mountPoint := none
            config := none, applications := [] }

/-- `verifyContainerPassword(name, password)` (source lines 109-126). -/
def verifyContainerPassword (name password : String) : M Bool := do
  let containerFile := containerFilePath name
  let ex ← fsPathExists containerFile
  if !ex then mthrow ("Container " ++ name ++ " does not exist")
  else do
    let r ← attempt (execCmd (verifyCmd containerFile password) none)
    match r with
    | Except.ok _ => mpure true
    | Except.error _ => mpure false

/-- The bounded wait in `stopApplications` for the process signature to
disappear: `pgrep` succeeding means still running (wait 500 ms and retry),
`pgrep` failing means terminated (break).  Returns the attempt count. -/
def waitForTermination : Nat → Nat → M Nat
  | 0, attempts => mpure attempts
  | fuel + 1, attempts => do
    let running ← attempt (execCmd pgrepCmd none)
    match running with
    | Except.ok _ => do
        sleepMs 500
        waitForTermination fuel (attempts + 1)
    | Except.error _ => mpure attempts

def stopMaxAttempts : Nat := 10

/-- One iteration of the `stopApplications` per-app loop body
(source lines 641-689). -/
def stopOneApp (app : ApplicationSpec) : M AppResult :=
  mtry (do
      let _ ← execCmd app.shutdownCommand none
      let attempts ← waitForTermination stopMaxAttempts 0
      if stopMaxAttempts ≤ attempts then
        swallow (do
          let _ ← execCmd pkillForceCmd none
          sleepMs 1000)
      else mpure ()
      mpure { application := app.appName, success := true
              message := app.appName ++ " stopped successfully" })
    (fun e =>
      mpure { application := app.appName, success := false
              message := "Failed to stop " ++ app.appName ++ ": " ++ e })

def stopAppsLoop : List ApplicationSpec → M (List AppResult)
  | [] => mpure []
  | app :: rest =>
    if app.shutdownCommand ≠ "" then do
      let r ← stopOneApp app
      let rs ← stopAppsLoop rest
      mpure (r :: rs)
    else stopAppsLoop rest

/-- `stopApplications(name)` (source lines 631-697). -/
def stopApplications (name : String) : M OpResults := do
  let status ← getContainerStatus name
  match status.config with
  | none => mpure { results := [] }
  | some cfg => do
    let results ← stopAppsLoop cfg.applications
    stopActivityMonitoringM
    deleteActivityM name
    mpure { results := results }

/-- One iteration of the `startApplications` per-app loop body
(source lines 570-618); the `catch` branch corresponds to a synchronous
launch failure. -/
def startOneApp (app : ApplicationSpec) : M AppResult :=
  mtry (do
      spawnApp app.startupCommand
      mpure { application := app.appName, success := true
              message := app.appName ++ " started successfully" })
    (fun e =>
      mpure { application := app.appName, success := false
              message := "Failed to start " ++ app.appName ++ ": " ++ e })

/-- The loop guard of `startApplications` (source line 571): JavaScript
truthiness of `app.enabled && app.startupCommand`. -/
def startQualifies (app : ApplicationSpec) : Bool :=
  app.enabled && app.startupCommand ≠ ""

def startAppsLoop : List ApplicationSpec → M (List AppResult)
  | [] => mpure []
  | app :: rest =>
    if startQualifies app then do
      let r ← startOneApp app
      let rs ← startAppsLoop rest
      mpure (r :: rs)
    else startAppsLoop rest

/-- `startApplications(name)` (source lines 557-629). -/
def startApplications (name : String) : M OpResults := do
  let status ← getContainerStatus name
  if !status.mounted then
    mthrow ("Container " ++ name ++ " is not mounted")
  else
    match status.config with
    | none => mthrow ("No configuration found for container " ++ name)
    | some cfg => do
      let results ← startAppsLoop cfg.applications
      if results.any (fun r => r.success) then do
        startActivityMonitoringM name
        recordActivityM name
      else mpure ()
      mpure { results := results }

/-- `unmountContainer(name)` (source lines 431-470). -/
def unmountContainer (name : String) : M UnmountResult := do
  let mountPoint := mountPointPath name
  let _ ← stopApplications name
  mtry (do
      let _ ← execCmd (umountCmd mountPoint) none
      let _ ← execCmd (luksCloseCmd (devName name)) none
      mtry (do
          let out ← execCmd (losetupQueryCmd (containerFilePath name)) none
          match loopDeviceOf out with
          | some l => do
              let _ ← execCmd (losetupDetachCmd l) none
              mpure ()
          | none => mpure ())
        (fun _ => mpure ()))
    (fun _ => mpure ())
  mpure { success := true
          message := "Container " ++ name ++ " unmounted successfully" }

/-- `setupSillyTavern(containerName, mountPoint)` (source lines 521-555).
The source `catch` logs and rethrows the same error, so it is semantically
transparent and not modelled as a handler. -/
def setupSillyTavern (mountPoint : String) : M Unit := do
  let sillyPath := mountPoint ++ "/sillytavern"
  let ex ← fsPathExists sillyPath
  if ex then mpure ()
  else do
    let _ ← execCmd (gitCloneCmd sillyPath) none
    fsCreateFile sillyPath
    let _ ← execCmd "npm install" none
    let _ ← execCmd ("chmod +x " ++ sillyPath ++ "/start.sh") none
    let _ ← execCmd ("sed -i 's/listen: false/listen: true/' " ++ sillyPath
              ++ "/config.yaml") none
    let _ ← execCmd ("sed -i 's/whitelistMode: true/whitelistMode: false/' "
              ++ sillyPath ++ "/config.yaml") none
    let _ ← execCmd ("sed -i 's/securityOverride: false/securityOverride: true/' "
              ++ sillyPath ++ "/config.yaml") none
    mpure ()

/-- `mountContainer(name, password)` (source lines 381-429). -/
def mountContainer (name password : String) : M MountResult := do
  let containerFile := containerFilePath name
  let mountPoint := mountPointPath name
  let ex ← fsPathExists containerFile
  if !ex then mthrow ("Container " ++ name ++ " does not exist")
  else do
    fsEnsureDir mountPoint
    swallow (do
      let _ ← execCmd (luksCloseCmd (devName name)) none
      mpure ())
    mtry (do
        let loopOut ← execCmd (losetupShowCmd containerFile) none
        let loopDevice := strTrim loopOut
        let _ ← execCmd (mountOpenCmd loopDevice (devName name) password) none
        let _ ← execCmd (mountFsCmd (devName name) mountPoint) none
        setupSillyTavern mountPoint
        mpure { success := true
                message := "Container " ++ name ++ " mounted successfully"
                mountPoint := some mountPoint })
      (fun e => mthrow ("Failed to mount container: " ++ e))

/-- The catch handler of `createContainer` (source lines 317-351): best-effort
cleanup — close any lingering mapping, detach any loop device associated
with the partial backing file, delete the partial backing file — then
rethrow the wrapped error. -/
def createCleanup (name : String) (e : JsError) : M Unit := do
  swallow (do
    swallow (do
      let _ ← execCmd (luksCloseCmd (devName name)) none
      mpure ())
    let ex2 ← fsPathExists (containerFilePath name)
    if ex2 then do
      swallow (do
        let out ← execCmd (losetupQueryCmd (containerFilePath name)) none
        match loopDeviceOf out with
        | some l => do
            let _ ← execCmd (losetupDetachCmd l) none
            mpure ()
        | none => mpure ())
      fsRemove (containerFilePath name)
    else mpure ())
  mthrow ("Failed to create container: " ++ e)

/-- `createContainer(name, password, sizeGB)` (source lines 256-379). -/
def createContainer (name password : String) (sizeGB : Nat) : M CreateResult := do
  let containerFile := containerFilePath name
  let configFile := configFilePath name
  let ex ← fsPathExists containerFile
  if ex then mthrow ("Container " ++ name ++ " already exists")
  else do
    swallow (do
      let _ ← execCmd (luksCloseCmd (devName name)) none
      mpure ())
    mtry (do
        let _ ← execCmd (ddCmd containerFile sizeGB) none
        fsCreateFile containerFile
        let loopOut ← execCmd (losetupShowCmd containerFile) none
        let loopDevice := strTrim loopOut
        let _ ← execCmd (luksFormatCmd loopDevice) (some (password ++ "\n"))
        let _ ← execCmd (luksOpenCmd loopDevice (devName name))
                  (some (password ++ "\n"))
        let _ ← execCmd (mkfsCmd (devName name)) none
        let _ ← execCmd (luksCloseCmd (devName name)) none
        let _ ← execCmd (losetupDetachCmd loopDevice) none
        mpure ())
      (fun e => createCleanup name e)
    fsWriteJSON configFile
    mpure { success := true
            message := "Container " ++ name ++ " created successfully"
            container := name }

/-- The bounded reachability poll of the auto-dismount sequence
(source lines 188-213): wait 1 s, increment, probe; a negative probe or a
probe failure breaks the loop.  Returns the attempt count. -/
def autoDismountPoll : Nat → Nat → M Nat
  | 0, attempts => mpure attempts
  | fuel + 1, attempts => do
    sleepMs 1000
    let r ← attempt probeApp
    match r with
    | Except.ok isRunning =>
        if !isRunning then mpure (attempts + 1)
        else autoDismountPoll fuel (attempts + 1)
    | Except.error _ => mpure (attempts + 1)

def pollMaxAttempts : Nat := 10

/-- The effective timeout computation of `checkForInactivity`
(source lines 163-172), including JavaScript truthiness of
`status.config?.autoUnmountTimeout`. -/
def effectiveTimeout (config : Option Config) : Nat :=
  match config with
  | some c =>
      match c.autoUnmountTimeout with
      | some t => if t = 0 then defaultTimeoutMinutes else t
      | none => defaultTimeoutMinutes
  | none => defaultTimeoutMinutes

/-- `checkForInactivity(containerName)` (source lines 156-226).  Elapsed
time is measured in milliseconds; `inactiveMinutes >= timeoutMinutes`
becomes `timeoutMinutes * 60000 ≤ now - last`. -/
def checkForInactivity (name : String) : M Unit := do
  let last ← getActivityM name
  match last with
  | none => mpure ()
  | some lastMs => do
    let statusRes ← attempt (getContainerStatus name)
    let timeoutMinutes :=
      match statusRes with
      | Except.ok st => effectiveTimeout st.config
      | Except.error _ => defaultTimeoutMinutes
    let now ← nowMs
    if timeoutMinutes * 60000 ≤ now - lastMs then
      mtry (do
          let _ ← stopApplications name
          let _ ← autoDismountPoll pollMaxAttempts 0
          let _ ← unmountContainer name
          stopActivityMonitoringM
          deleteActivityM name)
        (fun _ => mpure ())
    else mpure ()

/-- `deleteContainer(name)` (source lines 699-765).  The JavaScript
`try`/`catch` with the mutable `deletionResults` array is embedded by
reifying each fallible step with `attempt` and threading the accumulated
details, so the `catch` sees exactly the details pushed before the failing
step. -/
def deleteContainer (name : String) : M DeleteResult := do
  let containerFile := containerFilePath name
  let configFile := configFilePath name
  let mountPoint := mountPointPath name
  let warnResult := fun (details : List String) (e : JsError) =>
    ({ success := true
       message := "Container " ++ name ++ " cleanup completed (with issues)"
       details := details
       warning := some e } : DeleteResult)
  let r1 ← attempt (unmountContainer name)
  let d1 := match r1 with
    | Except.ok _ => ["Container unmounted"]
    | Except.error _ => ["Unmount skipped (not mounted)"]
  let r2 ← attempt (do
    let ex ← fsPathExists containerFile
    if ex then do
      fsRemove containerFile
      mpure "Container file deleted"
    else mpure "Container file not found (already deleted)")
  match r2 with
  | Except.error e => mpure (warnResult d1 e)
  | Except.ok m2 => do
    let d2 := d1 ++ [m2]
    let r3 ← attempt (do
      let ex ← fsPathExists configFile
      if ex then do
        fsRemove configFile
        mpure "Configuration deleted"
      else mpure "Configuration not found (already deleted)")
    match r3 with
    | Except.error e => mpure (warnResult d2 e)
    | Except.ok m3 => do
      let d3 := d2 ++ [m3]
      let r4 ← attempt (do
        let ex ← fsPathExists mountPoint
        if ex then do
          fsRemove mountPoint
          mpure "Mount point removed"
        else mpure "Mount point not found (already removed)")
      match r4 with
      | Except.error e => mpure (warnResult d3 e)
      | Except.ok m4 =>
        mpure { success := true
                message := "Container " ++ name ++ " deleted successfully"
                details := d3 ++ [m4]
                warning := none }

/-- Responses of the transport layer for `DELETE /api/containers/primary`. -/
inductive RouteResp where
  | badRequest (body : String)
  | unauthorized (body : String)
  | okJson (r : DeleteResult)
  | serverError (body : String)
  deriving Repr, DecidableEq

/-- The `DELETE /primary` route handler (routes/containers.js lines 87-106);
`!password` is JavaScript-falsy for a missing or empty password. -/
def deleteRoutePrimary (password : Option String) : M RouteResp := do
  match password with
  | none => mpure (RouteResp.badRequest "Password required for deletion")
  | some p =>
    if p = "" then mpure (RouteResp.badRequest "Password required for deletion")
    else do
      let r ← attempt (do
        let valid ← verifyContainerPassword "primary" p
        if valid then do
          let d ← deleteContainer "primary"
          mpure (RouteResp.okJson d)
        else mpure (RouteResp.unauthorized "Invalid password"))
      match r with
      | Except.ok resp => mpure resp
      | Except.error e => mpure (RouteResp.serverError e)

/-! ### Closed-form characterizations of the runs

Every embedded operation is deterministic, so each one is characterized by a
pure value function and a pure trace function of the oracle and the initial
state.  The claim theorems are proved from these run lemmas. -/

/-- The mounted flag `getContainerStatus` computes, as a pure function. -/
def mountedOf (env : Env) (name : String) : Bool :=
  if env.accessOk (mountPointPath name) then
    match env.statIsDir (mountPointPath name) with
    | Except.ok true =>
        match env.exec (lsMapperCmd (devName name)) none with
        | Except.ok _ =>
            match env.exec "mount" none with
            | Except.ok mountCheck =>
                strIncludes mountCheck ("/dev/mapper/" ++ devName name)
                  && strIncludes mountCheck (mountPointPath name)
            | Except.error _ => false
        | Except.error _ => false
    | Except.ok false => false
    | Except.error _ => false
  else false

/-- The trace `mountedCheck` appends. -/
def mountedTrace (env : Env) (name : String) : List Action :=
  if env.accessOk (mountPointPath name) then
    match env.statIsDir (mountPointPath name) with
    | Except.ok true =>
        match env.exec (lsMapperCmd (devName name)) none with
        | Except.ok _ => [Action.exec (lsMapperCmd (devName name)), Action.exec "mount"]
        | Except.error _ => [Action.exec (lsMapperCmd (devName name))]
    | Except.ok false => []
    | Except.error _ => []
  else []

/-- The config value `getContainerStatus` loads, as a pure function. -/
def configOf (env : Env) (fs : List String) (name : String) : Option Config :=
  if configFilePath name ∈ fs then
    match env.readJSON (configFilePath name) with
    | Except.ok c => some c
    | Except.error _ => none
  else none

/-- The status record `getContainerStatus` returns, as a pure function. -/
def statusOf (env : Env) (fs : List String) (name : String) : ContainerStatus :=
  if containerFilePath name ∈ fs then
    { fileExists := true
      mounted := mountedOf env name
      mountPoint := if mountedOf env name then some (mountPointPath name) else none
      config := configOf env fs name
      applications := match configOf env fs name with
        | some c => c.applications
        | none => [] }
  else
    { fileExists := false, mounted := false, mountPoint := none
      config := none, applications := [] }

/-- The trace `getContainerStatus` appends. -/
def statusTrace (env : Env) (fs : List String) (name : String) : List Action :=
  if containerFilePath name ∈ fs then mountedTrace env name else []

theorem mountedCheck_run (name : String) (env : Env) (s : St) :
    mountedCheck name env s =
      (Except.ok (mountedOf env name),
       { s with trace := s.trace ++ mountedTrace env name }) := by
  by_cases hacc : env.accessOk (mountPointPath name)
  · rcases hdir : env.statIsDir (mountPointPath name) with e | b
    · simp [mountedCheck, mountedOf, mountedTrace, run_bind, mtry, fsAccess,
        fsStatIsDir, mpure, hacc, hdir]
    · cases b
      · simp [mountedCheck, mountedOf, mountedTrace, run_bind, mtry, fsAccess,
          fsStatIsDir, mpure, hacc, hdir]
      · rcases hls : env.exec (lsMapperCmd (devName name)) none with e | o
        · simp [mountedCheck, mountedOf, mountedTrace, run_bind, mtry, fsAccess,
            fsStatIsDir, execCmd, mpure, hacc, hdir, hls]
        · rcases hmt : env.exec "mount" none with e | mc
          · simp [mountedCheck, mountedOf, mountedTrace, run_bind, mtry, fsAccess,
              fsStatIsDir, execCmd, mpure, hacc, hdir, hls, hmt]
          · simp [mountedCheck, mountedOf, mountedTrace, run_bind, mtry, fsAccess,
              fsStatIsDir, execCmd, mpure, hacc, hdir, hls, hmt]
  · simp [mountedCheck, mountedOf, mountedTrace, run_bind, mtry, fsAccess,
      mpure, hacc]

theorem configLoad_run (name : String) (env : Env) (s : St) :
    configLoad name env s = (Except.ok (configOf env s.files name), s) := by
  by_cases hcf : configFilePath name ∈ s.files
  · rcases hrd : env.readJSON (configFilePath name) with e | c
    · simp [configLoad, configOf, run_bind, mtry, fsReadJSON, mpure, hcf, hrd]
    · simp [configLoad, configOf, run_bind, mtry, fsReadJSON, mpure, hcf, hrd]
  · simp [configLoad, configOf, run_bind, mtry, fsReadJSON, mpure, hcf]

theorem getContainerStatus_run (name : String) (env : Env) (s : St) :
    getContainerStatus name env s =
      (Except.ok (statusOf env s.files name),
       { s with trace := s.trace ++ statusTrace env s.files name }) := by
  by_cases hex : containerFilePath name ∈ s.files
  · simp [getContainerStatus, statusOf, statusTrace, run_bind, fsPathExists,
      mountedCheck_run, configLoad_run, mpure, hex]
  · simp [getContainerStatus, statusOf, statusTrace, run_bind, fsPathExists,
      mpure, hex]

/-- The trace of the bounded `pgrep` wait in `stopApplications`. -/
def waitTrace (env : Env) : Nat → List Action
  | 0 => []
  | fuel + 1 =>
      match env.exec pgrepCmd none with
      | Except.ok _ => Action.exec pgrepCmd :: Action.sleep 500 :: waitTrace env fuel
      | Except.error _ => [Action.exec pgrepCmd]

/-- The attempt count the bounded `pgrep` wait returns. -/
def waitValue (env : Env) (fuel attempts : Nat) : Nat :=
  match env.exec pgrepCmd none with
  | Except.ok _ => attempts + fuel
  | Except.error _ => attempts

theorem waitForTermination_run (env : Env) :
    ∀ (fuel attempts : Nat) (s : St),
      waitForTermination fuel attempts env s =
        (Except.ok (waitValue env fuel attempts),
         { s with trace := s.trace ++ waitTrace env fuel }) := by
  intro fuel
  induction fuel with
  | zero =>
      intro attempts s
      rcases h : env.exec pgrepCmd none with e | o <;>
        simp [waitForTermination, waitValue, waitTrace, mpure, h]
  | succ f ih =>
      intro attempts s
      rcases h : env.exec pgrepCmd none with e | o
      · simp [waitForTermination, waitValue, waitTrace, run_bind, attempt,
          execCmd, mpure, h]
      · simp [waitForTermination, waitValue, waitTrace, run_bind, attempt,
          execCmd, sleepMs, mpure, h, ih]
        omega

/-- The trace of the forced-kill fallback in `stopApplications`. -/
def forceTrace (env : Env) : List Action :=
  match env.exec pkillForceCmd none with
  | Except.ok _ => [Action.exec pkillForceCmd, Action.sleep 1000]
  | Except.error _ => [Action.exec pkillForceCmd]

/-- The per-application result of `stopApplications`: determined by the
shutdown command's exec outcome alone (the wait loop swallows its errors). -/
def stopOneAppResult (env : Env) (app : ApplicationSpec) : AppResult :=
  match env.exec app.shutdownCommand none with
  | Except.ok _ =>
      { application := app.appName, success := true
        message := app.appName ++ " stopped successfully" }
  | Except.error e =>
      { application := app.appName, success := false
        message := "Failed to stop " ++ app.appName ++ ": " ++ e }

/-- The trace of one `stopApplications` loop iteration. -/
def stopOneAppTrace (env : Env) (app : ApplicationSpec) : List Action :=
  match env.exec app.shutdownCommand none with
  | Except.ok _ =>
      Action.exec app.shutdownCommand ::
        (waitTrace env stopMaxAttempts ++
          match env.exec pgrepCmd none with
          | Except.ok _ => forceTrace env
          | Except.error _ => [])
  | Except.error _ => [Action.exec app.shutdownCommand]

theorem stopOneApp_run (env : Env) (app : ApplicationSpec) (s : St) :
    stopOneApp app env s =
      (Except.ok (stopOneAppResult env app),
       { s with trace := s.trace ++ stopOneAppTrace env app }) := by
  rcases hsd : env.exec app.shutdownCommand none with e | o
  · simp [stopOneApp, stopOneAppResult, stopOneAppTrace, run_bind, mtry,
      execCmd, mpure, hsd]
  · rcases hpg : env.exec pgrepCmd none with e | o2
    · simp [stopOneApp, stopOneAppResult, stopOneAppTrace, run_bind, mtry,
        execCmd, mpure, hsd, hpg, waitForTermination_run, waitValue,
        stopMaxAttempts]
    · rcases hpk : env.exec pkillForceCmd none with e | o3 <;>
        simp [stopOneApp, stopOneAppResult, stopOneAppTrace, run_bind, mtry,
          execCmd, mpure, swallow, mbind, sleepMs, hsd, hpg, hpk,
          waitForTermination_run, waitValue, forceTrace, stopMaxAttempts]

/-- The results of the `stopApplications` loop over a list of apps. -/
def stopLoopResults (env : Env) : List ApplicationSpec → List AppResult
  | [] => []
  | app :: rest =>
      if app.shutdownCommand ≠ "" then
        stopOneAppResult env app :: stopLoopResults env rest
      else stopLoopResults env rest

/-- The trace of the `stopApplications` loop over a list of apps. -/
def stopLoopTrace (env : Env) : List ApplicationSpec → List Action
  | [] => []
  | app :: rest =>
      if app.shutdownCommand ≠ "" then
        stopOneAppTrace env app ++ stopLoopTrace env rest
      else stopLoopTrace env rest

theorem stopAppsLoop_run (env : Env) :
    ∀ (apps : List ApplicationSpec) (s : St),
      stopAppsLoop apps env s =
        (Except.ok (stopLoopResults env apps),
         { s with trace := s.trace ++ stopLoopTrace env apps }) := by
  intro apps
  induction apps with
  | nil => intro s; simp [stopAppsLoop, stopLoopResults, stopLoopTrace, mpure]
  | cons app rest ih =>
      intro s
      by_cases hsc : app.shutdownCommand = ""
      · simp [stopAppsLoop, stopLoopResults, stopLoopTrace, hsc, ih]
      · simp [stopAppsLoop, stopLoopResults, stopLoopTrace, hsc, run_bind,
          stopOneApp_run, ih, mpure]

/-- The value `stopApplications` returns. -/
def stopValue (env : Env) (fs : List String) (name : String) : OpResults :=
  match (statusOf env fs name).config with
  | none => { results := [] }
  | some cfg => { results := stopLoopResults env cfg.applications }

/-- The trace `stopApplications` appends. -/
def stopTrace (env : Env) (fs : List String) (name : String) : List Action :=
  statusTrace env fs name ++
    match (statusOf env fs name).config with
    | none => []
    | some cfg => stopLoopTrace env cfg.applications

/-- The state `stopApplications` leaves: with a loaded config it clears the
monitoring interval and deletes the activity record; without one it returns
early and touches neither. -/
def stopState (env : Env) (s : St) (name : String) : St :=
  match (statusOf env s.files name).config with
  | none => { s with trace := s.trace ++ stopTrace env s.files name }
  | some _ =>
      { s with trace := s.trace ++ stopTrace env s.files name
               interval := none
               lastActivity := delEntry s.lastActivity name }

theorem stopApplications_run (name : String) (env : Env) (s : St) :
    stopApplications name env s =
      (Except.ok (stopValue env s.files name), stopState env s name) := by
  rcases hcfg : (statusOf env s.files name).config with _ | cfg
  · simp [stopApplications, run_bind, getContainerStatus_run, hcfg, stopValue,
      stopState, stopTrace, mpure]
  · simp [stopApplications, run_bind, getContainerStatus_run, hcfg, stopValue,
      stopState, stopTrace, stopAppsLoop_run, stopActivityMonitoringM,
      deleteActivityM, mpure]

/-- The trace of the unmount step sequence of `unmountContainer` (after the
application stop): the `umount` attempt always happens first, later steps
only while the earlier ones succeed. -/
def unmountTrace (env : Env) (name : String) : List Action :=
  Action.exec (umountCmd (mountPointPath name)) ::
    match env.exec (umountCmd (mountPointPath name)) none with
    | Except.error _ => []
    | Except.ok _ =>
        Action.exec (luksCloseCmd (devName name)) ::
          match env.exec (luksCloseCmd (devName name)) none with
          | Except.error _ => []
          | Except.ok _ =>
              Action.exec (losetupQueryCmd (containerFilePath name)) ::
                match env.exec (losetupQueryCmd (containerFilePath name)) none with
                | Except.error _ => []
                | Except.ok out =>
                    match loopDeviceOf out with
                    | some l => [Action.exec (losetupDetachCmd l)]
                    | none => []

/-- The (unconditional) success value of `unmountContainer`. -/
def unmountValue (name : String) : UnmountResult :=
  { success := true
    message := "Container " ++ name ++ " unmounted successfully" }

theorem unmountContainer_run (name : String) (env : Env) (s : St) :
    unmountContainer name env s =
      (Except.ok (unmountValue name),
       { stopState env s name with
           trace := (stopState env s name).trace ++ unmountTrace env name }) := by
  rcases hum : env.exec (umountCmd (mountPointPath name)) none with e | o
  · simp [unmountContainer, unmountValue, unmountTrace, run_bind, mtry,
      execCmd, mpure, stopApplications_run, hum]
  · rcases hcl : env.exec (luksCloseCmd (devName name)) none with e | o2
    · simp [unmountContainer, unmountValue, unmountTrace, run_bind, mtry,
        execCmd, mpure, stopApplications_run, hum, hcl]
    · rcases hq : env.exec (losetupQueryCmd (containerFilePath name)) none with e | out
      · simp [unmountContainer, unmountValue, unmountTrace, run_bind, mtry,
          execCmd, mpure, stopApplications_run, hum, hcl, hq]
      · rcases hl : loopDeviceOf out with _ | l
        · simp [unmountContainer, unmountValue, unmountTrace, run_bind, mtry,
            execCmd, mpure, stopApplications_run, hum, hcl, hq, hl]
        · rcases hd : env.exec (losetupDetachCmd l) none with e | o4 <;>
            simp [unmountContainer, unmountValue, unmountTrace, run_bind, mtry,
              execCmd, mpure, stopApplications_run, hum, hcl, hq, hl, hd]

/-- The trace of the auto-dismount reachability poll. -/
def pollTrace (env : Env) : Nat → List Action
  | 0 => []
  | fuel + 1 =>
      Action.sleep 1000 :: Action.probe ::
        match env.probe with
        | Except.ok true => pollTrace env fuel
        | Except.ok false => []
        | Except.error _ => []

/-- The attempt count the auto-dismount reachability poll returns. -/
def pollValue (env : Env) (fuel attempts : Nat) : Nat :=
  match env.probe with
  | Except.ok true => attempts + fuel
  | Except.ok false => attempts + min fuel 1
  | Except.error _ => attempts + min fuel 1

theorem autoDismountPoll_run (env : Env) :
    ∀ (fuel attempts : Nat) (s : St),
      autoDismountPoll fuel attempts env s =
        (Except.ok (pollValue env fuel attempts),
         { s with trace := s.trace ++ pollTrace env fuel }) := by
  intro fuel
  induction fuel with
  | zero =>
      intro attempts s
      rcases h : env.probe with e | b
      · simp [autoDismountPoll, pollValue, pollTrace, mpure, h]
      · cases b <;> simp [autoDismountPoll, pollValue, pollTrace, mpure, h]
  | succ f ih =>
      intro attempts s
      rcases h : env.probe with e | b
      · simp [autoDismountPoll, pollValue, pollTrace, run_bind, attempt,
          probeApp, sleepMs, mpure, h]
      · cases b
        · simp [autoDismountPoll, pollValue, pollTrace, run_bind, attempt,
            probeApp, sleepMs, mpure, h]
        · simp [autoDismountPoll, pollValue, pollTrace, run_bind, attempt,
            probeApp, sleepMs, mpure, h, ih]
          omega

/-- The state after a completed auto-dismount sequence of
`checkForInactivity`: stop, poll, unmount (which stops again), stop
monitoring, delete the activity record. -/
def dismountState (env : Env) (s : St) (name : String) : St :=
  let s1 : St := { s with trace := s.trace ++ statusTrace env s.files name }
  let s2 : St := stopState env s1 name
  let s3 : St := { s2 with trace := s2.trace ++ pollTrace env pollMaxAttempts }
  let s4 : St := { stopState env s3 name with
                     trace := (stopState env s3 name).trace ++ unmountTrace env name }
  { s4 with interval := none, lastActivity := delEntry s4.lastActivity name }

theorem checkForInactivity_run (name : String) (env : Env) (s : St) :
    checkForInactivity name env s =
      match getEntry s.lastActivity name with
      | none => (Except.ok (), s)
      | some lastMs =>
          if effectiveTimeout (statusOf env s.files name).config * 60000
              ≤ env.now - lastMs then
            (Except.ok (), dismountState env s name)
          else
            (Except.ok (),
             { s with trace := s.trace ++ statusTrace env s.files name }) := by
  rcases hla : getEntry s.lastActivity name with _ | lastMs
  · simp [checkForInactivity, run_bind, getActivityM, mpure, hla]
  · by_cases ht : effectiveTimeout (statusOf env s.files name).config * 60000
        ≤ env.now - lastMs
    · simp [checkForInactivity, run_bind, getActivityM, attempt, mpure, hla,
        getContainerStatus_run, nowMs, ht, mtry, dismountState,
        stopApplications_run, autoDismountPoll_run, unmountContainer_run,
        stopActivityMonitoringM, deleteActivityM]
    · simp [checkForInactivity, run_bind, getActivityM, attempt, mpure, hla,
        getContainerStatus_run, nowMs, ht, mtry]

/-! ### Auxiliary facts used by the claim theorems -/

theorem getEntry_delEntry (name : String) :
    ∀ m : List (String × Nat), getEntry (delEntry m name) name = none := by
  intro m
  induction m with
  | nil => simp [getEntry, delEntry]
  | cons kv rest ih =>
      obtain ⟨k, v⟩ := kv
      by_cases hk : k = name
      · simp [delEntry, hk, ih]
      · simp [delEntry, getEntry, hk, ih]

theorem pollTrace_mem (env : Env) :
    ∀ fuel, ∀ a ∈ pollTrace env fuel, a = Action.sleep 1000 ∨ a = Action.probe := by
  intro fuel
  induction fuel with
  | zero => simp [pollTrace]
  | succ f ih =>
      intro a ha
      rcases hp : env.probe with e | b
      · simp [pollTrace, hp] at ha
        rcases ha with h | h <;> simp [h]
      · cases b
        · simp [pollTrace, hp] at ha
          rcases ha with h | h <;> simp [h]
        · simp [pollTrace, hp] at ha
          rcases ha with h | h | h
          · simp [h]
          · simp [h]
          · exact ih a h

theorem pollTrace_count (env : Env) :
    ∀ fuel, (pollTrace env fuel).count Action.probe ≤ fuel := by
  intro fuel
  induction fuel with
  | zero => simp [pollTrace]
  | succ f ih =>
      rcases hp : env.probe with e | b
      · simp [pollTrace, hp, List.count_cons]
      · cases b
        · simp [pollTrace, hp, List.count_cons]
        · simp [pollTrace, hp, List.count_cons]
          omega

theorem statusTrace_mem (env : Env) (fs : List String) (name : String) :
    ∀ a ∈ statusTrace env fs name,
      a = Action.exec (lsMapperCmd (devName name)) ∨ a = Action.exec "mount" := by
  intro a ha
  by_cases hex : containerFilePath name ∈ fs
  · simp [statusTrace, hex] at ha
    by_cases hacc : env.accessOk (mountPointPath name)
    · rcases hdir : env.statIsDir (mountPointPath name) with e | b
      · simp [mountedTrace, hacc, hdir] at ha
      · cases b
        · simp [mountedTrace, hacc, hdir] at ha
        · rcases hls : env.exec (lsMapperCmd (devName name)) none with e | o
          · simp [mountedTrace, hacc, hdir, hls] at ha
            simp [ha]
          · simp [mountedTrace, hacc, hdir, hls] at ha
            rcases ha with h | h <;> simp [h]
    · simp [mountedTrace, hacc] at ha
  · simp [statusTrace, hex] at ha

theorem unmountTrace_cons (env : Env) (name : String) :
    ∃ t, unmountTrace env name
        = Action.exec (umountCmd (mountPointPath name)) :: t :=
  ⟨_, rfl⟩

/-! ### Claim theorems -/

/-- **C10**: for a container with no recorded activity, `checkForInactivity`
returns immediately: no applications stopped, no unmount, and the state
(activity map, monitoring interval, files, trace) is left exactly as it
was. -/
theorem checkForInactivity_no_record_frame (name : String) (env : Env) (s : St)
    (h : getEntry s.lastActivity name = none) :
    checkForInactivity name env s = (Except.ok (), s) := by
  simp [checkForInactivity_run, h]

/-- **C5** (counterexample): after `stopActivityMonitoring` the interval is
cleared, but the container's `lastActivity` entry is still present — the
claim that no activity record remains is false on the code. -/
def mkSampleEnv : Env :=
  { exec := fun _ _ => Except.error "sample failure"
    removeResult := fun _ => Except.ok ()
    readJSON := fun _ => Except.error "sample failure"
    accessOk := fun _ => false
    statIsDir := fun _ => Except.error "sample failure"
    probe := Except.error "sample failure"
    spawnOk := fun _ => Except.ok ()
    now := 900000 }

def mkMonitoredSt : St :=
  { lastActivity := [("primary", 5)]
    interval := some "primary"
    files := []
    trace := [] }

theorem stopActivityMonitoring_keeps_record :
    (stopActivityMonitoringM mkSampleEnv mkMonitoredSt).2.interval = none ∧
    getEntry (stopActivityMonitoringM mkSampleEnv mkMonitoredSt).2.lastActivity
        "primary" = some 5 := by
  constructor <;> rfl

/-- **C5** (amended): `stopActivityMonitoring` cancels the scheduled
recurring check (monitoring becomes inactive) and changes nothing else: in
particular the container's activity record is left in place; its removal is
performed separately by the callers (`stopApplications` and the
auto-dismount sequence). -/
theorem stopActivityMonitoring_cancels_schedule_only (env : Env) (s : St) :
    stopActivityMonitoringM env s = (Except.ok (), { s with interval := none }) :=
  rfl

/-- **C6**: `unmountContainer` returns a success result (`success = true`)
for every oracle and state — in particular on a container that is not
mounted — and calling it twice in a row returns success both times:
unmount is idempotent. -/
theorem unmountContainer_idempotent_success (name : String) (env : Env) (s : St) :
    (unmountContainer name env s).1 = Except.ok (unmountValue name) ∧
    (unmountValue name).success = true ∧
    (unmountContainer name env (unmountContainer name env s).2).1
      = Except.ok (unmountValue name) := by
  refine ⟨?_, rfl, ?_⟩ <;> simp [unmountContainer_run]

/-- **C3**: the application-stop step completes before the filesystem
unmount in both paths.  (a) The trace of `unmountContainer` is exactly the
completed trace of `stopApplications` followed by the `umount` invocation
and its successors.  (b) In the auto-dismount branch of
`checkForInactivity`, the trace is the completed `stopApplications` trace,
then the bounded reachability poll (only sleeps and probes), and the
`umount` invocation occurs only in the remainder. -/
theorem stop_completes_before_unmount (name : String) (env : Env) (s : St) :
    (∃ rest,
        (unmountContainer name env s).2.trace =
          (stopApplications name env s).2.trace
            ++ Action.exec (umountCmd (mountPointPath name)) :: rest) ∧
    (∀ lastMs, getEntry s.lastActivity name = some lastMs →
      effectiveTimeout (statusOf env s.files name).config * 60000
          ≤ env.now - lastMs →
      ∃ rest,
        (checkForInactivity name env s).2.trace =
          (stopApplications name env
              { s with trace := s.trace ++ statusTrace env s.files name }).2.trace
            ++ pollTrace env pollMaxAttempts ++ rest ∧
        (∀ a ∈ pollTrace env pollMaxAttempts,
           a = Action.sleep 1000 ∨ a = Action.probe) ∧
        Action.exec (umountCmd (mountPointPath name)) ∈ rest) := by
  constructor
  · obtain ⟨t, ht⟩ := unmountTrace_cons env name
    exact ⟨t, by simp [unmountContainer_run, stopApplications_run, ht]⟩
  · intro lastMs hlast htime
    refine ⟨stopTrace env s.files name ++ unmountTrace env name, ?_, ?_, ?_⟩
    · simp [checkForInactivity_run, hlast, htime, dismountState,
        stopApplications_run, stopState]
      rcases hcfg : (statusOf env s.files name).config with _ | cfg <;>
        simp [stopState, hcfg, stopTrace]
    · exact pollTrace_mem env pollMaxAttempts
    · obtain ⟨t, ht⟩ := unmountTrace_cons env name
      simp [ht]

/-- **C1**: with a recorded activity timestamp, `checkForInactivity` never
propagates an error; the configured timeout falls back to the 15-minute
system default when no config is readable; the auto-dismount sequence runs
exactly when the elapsed time reaches the timeout, in order — complete
application stop, bounded reachability poll (at most `pollMaxAttempts`
probes), unmount — and afterwards monitoring is stopped and the activity
record is deleted; below the timeout the state is unchanged apart from the
status-inspection commands. -/
theorem checkForInactivity_auto_dismount (name : String) (env : Env) (s : St)
    (lastMs : Nat) (hlast : getEntry s.lastActivity name = some lastMs) :
    (checkForInactivity name env s).1 = Except.ok () ∧
    (configOf env s.files name = none →
      effectiveTimeout (statusOf env s.files name).config = defaultTimeoutMinutes) ∧
    (effectiveTimeout (statusOf env s.files name).config * 60000
        ≤ env.now - lastMs →
      getEntry (checkForInactivity name env s).2.lastActivity name = none ∧
      (checkForInactivity name env s).2.interval = none ∧
      ∃ rest,
        (checkForInactivity name env s).2.trace =
          (stopApplications name env
              { s with trace := s.trace ++ statusTrace env s.files name }).2.trace
            ++ pollTrace env pollMaxAttempts ++ rest ∧
        (pollTrace env pollMaxAttempts).count Action.probe ≤ pollMaxAttempts ∧
        Action.exec (umountCmd (mountPointPath name)) ∈ rest) ∧
    (¬ effectiveTimeout (statusOf env s.files name).config * 60000
        ≤ env.now - lastMs →
      (checkForInactivity name env s).2 =
        { s with trace := s.trace ++ statusTrace env s.files name } ∧
      ∀ a ∈ statusTrace env s.files name,
        a = Action.exec (lsMapperCmd (devName name)) ∨ a = Action.exec "mount") := by
  refine ⟨?_, ?_, ?_, ?_⟩
  · by_cases htime : effectiveTimeout (statusOf env s.files name).config * 60000
        ≤ env.now - lastMs <;>
      simp [checkForInactivity_run, hlast, htime]
  · intro hcfg
    by_cases hex : containerFilePath name ∈ s.files <;>
      simp [statusOf, hex, hcfg, effectiveTimeout]
  · intro htime
    refine ⟨?_, ?_, stopTrace env s.files name ++ unmountTrace env name, ?_, ?_, ?_⟩
    · simp [checkForInactivity_run, hlast, htime, dismountState, getEntry_delEntry]
    · simp [checkForInactivity_run, hlast, htime, dismountState]
    · simp [checkForInactivity_run, hlast, htime, dismountState,
        stopApplications_run, stopState]
      rcases hcfg : (statusOf env s.files name).config with _ | cfg <;>
        simp [stopState, hcfg, stopTrace]
    · exact pollTrace_count env pollMaxAttempts
    · obtain ⟨t, ht⟩ := unmountTrace_cons env name
      simp [ht]
  · intro htime
    exact ⟨by simp [checkForInactivity_run, hlast, htime],
      statusTrace_mem env s.files name⟩

/-! ### Concrete sample states used by the witnesses -/

def mkEmptySt : St :=
  { lastActivity := [], interval := none, files := [], trace := [] }

/-- A state whose only activity record is 900000 ms (15 min) staler than
`mkSampleEnv.now`. -/
def mkStaleSt : St :=
  { lastActivity := [("primary", 0)]
    interval := some "primary"
    files := []
    trace := [] }

theorem checkForInactivity_no_record_frame_witness :
    getEntry mkEmptySt.lastActivity "primary" = none ∧
    checkForInactivity "primary" mkSampleEnv mkEmptySt = (Except.ok (), mkEmptySt) :=
  ⟨rfl, checkForInactivity_no_record_frame "primary" mkSampleEnv mkEmptySt rfl⟩

theorem stop_completes_before_unmount_witness :
    (∃ rest,
        (unmountContainer "primary" mkSampleEnv mkStaleSt).2.trace =
          (stopApplications "primary" mkSampleEnv mkStaleSt).2.trace
            ++ Action.exec (umountCmd (mountPointPath "primary")) :: rest) ∧
    (∃ rest,
        (checkForInactivity "primary" mkSampleEnv mkStaleSt).2.trace =
          (stopApplications "primary" mkSampleEnv
              { mkStaleSt with trace :=
                  mkStaleSt.trace
                    ++ statusTrace mkSampleEnv mkStaleSt.files "primary" }).2.trace
            ++ pollTrace mkSampleEnv pollMaxAttempts ++ rest ∧
        (∀ a ∈ pollTrace mkSampleEnv pollMaxAttempts,
           a = Action.sleep 1000 ∨ a = Action.probe) ∧
        Action.exec (umountCmd (mountPointPath "primary")) ∈ rest) :=
  ⟨(stop_completes_before_unmount "primary" mkSampleEnv mkStaleSt).1,
   (stop_completes_before_unmount "primary" mkSampleEnv mkStaleSt).2 0 rfl
     (by decide)⟩

theorem checkForInactivity_auto_dismount_witness :
    getEntry mkStaleSt.lastActivity "primary" = some 0 ∧
    ((checkForInactivity "primary" mkSampleEnv mkStaleSt).1 = Except.ok () ∧
     (configOf mkSampleEnv mkStaleSt.files "primary" = none →
       effectiveTimeout (statusOf mkSampleEnv mkStaleSt.files "primary").config
         = defaultTimeoutMinutes) ∧
     (effectiveTimeout (statusOf mkSampleEnv mkStaleSt.files "primary").config * 60000
         ≤ mkSampleEnv.now - 0 →
       getEntry (checkForInactivity "primary" mkSampleEnv mkStaleSt).2.lastActivity
           "primary" = none ∧
       (checkForInactivity "primary" mkSampleEnv mkStaleSt).2.interval = none ∧
       ∃ rest,
         (checkForInactivity "primary" mkSampleEnv mkStaleSt).2.trace =
           (stopApplications "primary" mkSampleEnv
               { mkStaleSt with trace :=
                   mkStaleSt.trace
                     ++ statusTrace mkSampleEnv mkStaleSt.files "primary" }).2.trace
             ++ pollTrace mkSampleEnv pollMaxAttempts ++ rest ∧
         (pollTrace mkSampleEnv pollMaxAttempts).count Action.probe
             ≤ pollMaxAttempts ∧
         Action.exec (umountCmd (mountPointPath "primary")) ∈ rest) ∧
     (¬ effectiveTimeout (statusOf mkSampleEnv mkStaleSt.files "primary").config
           * 60000 ≤ mkSampleEnv.now - 0 →
       (checkForInactivity "primary" mkSampleEnv mkStaleSt).2 =
         { mkStaleSt with trace :=
             mkStaleSt.trace ++ statusTrace mkSampleEnv mkStaleSt.files "primary" } ∧
       ∀ a ∈ statusTrace mkSampleEnv mkStaleSt.files "primary",
         a = Action.exec (lsMapperCmd (devName "primary"))
           ∨ a = Action.exec "mount")) :=
  ⟨rfl, checkForInactivity_auto_dismount "primary" mkSampleEnv mkStaleSt 0 rfl⟩

/-- A state in which the primary container's backing file exists. -/
def mkFileSt : St :=
  { lastActivity := [], interval := none
    files := [containerFilePath "primary"], trace := [] }

/-- **C4** (counterexample): `verifyContainerPassword` throws when the
backing file does not exist (source line 113), so it does not return a
boolean on every input — the claim that it never propagates an error is
false. -/
theorem verifyContainerPassword_throws_counterexample :
    (verifyContainerPassword "primary" "secret123" mkSampleEnv mkEmptySt).1
      = Except.error "Container primary does not exist" := rfl

/-- **C4** (amended): when the backing file exists, `verifyContainerPassword`
returns a boolean and never propagates an error — `true` exactly when the
non-mutating unlock test succeeds, `false` on any unlock failure; but when
the backing file does not exist it throws a not-found error instead of
returning `false`. -/
theorem verifyContainerPassword_boolean_spec (name password : String)
    (env : Env) (s : St) :
    (containerFilePath name ∉ s.files →
      verifyContainerPassword name password env s
        = (Except.error ("Container " ++ name ++ " does not exist"), s)) ∧
    (containerFilePath name ∈ s.files →
      verifyContainerPassword name password env s =
        ((match env.exec (verifyCmd (containerFilePath name) password) none with
          | Except.ok _ => Except.ok true
          | Except.error _ => Except.ok false),
         { s with trace := s.trace
             ++ [Action.exec (verifyCmd (containerFilePath name) password)] })) := by
  constructor
  · intro hnx
    simp [verifyContainerPassword, run_bind, fsPathExists, mthrow, hnx]
  · intro hmem
    rcases hv : env.exec (verifyCmd (containerFilePath name) password) none with e | o <;>
      simp [verifyContainerPassword, run_bind, fsPathExists, attempt, execCmd,
        mpure, hmem, hv]

theorem verifyContainerPassword_boolean_spec_witness :
    (containerFilePath "primary" ∈ mkFileSt.files) ∧
    verifyContainerPassword "primary" "secret123" mkSampleEnv mkFileSt =
      ((match mkSampleEnv.exec
            (verifyCmd (containerFilePath "primary") "secret123") none with
        | Except.ok _ => Except.ok true
        | Except.error _ => Except.ok false),
       { mkFileSt with trace := mkFileSt.trace
           ++ [Action.exec (verifyCmd (containerFilePath "primary") "secret123")] }) :=
  ⟨by decide,
   (verifyContainerPassword_boolean_spec "primary" "secret123" mkSampleEnv
      mkFileSt).2 (by decide)⟩

/-! ### Closed forms for `startApplications` -/

/-- The per-application result of `startApplications`: determined by the
spawn outcome of the startup command. -/
def startOneAppResult (env : Env) (app : ApplicationSpec) : AppResult :=
  match env.spawnOk app.startupCommand with
  | Except.ok _ =>
      { application := app.appName, success := true
        message := app.appName ++ " started successfully" }
  | Except.error e =>
      { application := app.appName, success := false
        message := "Failed to start " ++ app.appName ++ ": " ++ e }

def startLoopResults (env : Env) : List ApplicationSpec → List AppResult
  | [] => []
  | app :: rest =>
      if startQualifies app then
        startOneAppResult env app :: startLoopResults env rest
      else startLoopResults env rest

/-- The trace of the `startApplications` loop: one spawn per qualifying
application, recorded whether or not the launch succeeds. -/
def startLoopTrace (env : Env) : List ApplicationSpec → List Action
  | [] => []
  | app :: rest =>
      if startQualifies app then
        Action.spawn app.startupCommand :: startLoopTrace env rest
      else startLoopTrace env rest

theorem startAppsLoop_run (env : Env) :
    ∀ (apps : List ApplicationSpec) (s : St),
      startAppsLoop apps env s =
        (Except.ok (startLoopResults env apps),
         { s with trace := s.trace ++ startLoopTrace env apps }) := by
  intro apps
  induction apps with
  | nil => intro s; simp [startAppsLoop, startLoopResults, startLoopTrace, mpure]
  | cons app rest ih =>
      intro s
      by_cases hq : startQualifies app = true
      · rcases hsp : env.spawnOk app.startupCommand with e | o <;>
          simp [startAppsLoop, startLoopResults, startLoopTrace, startOneApp,
            startOneAppResult, run_bind, mtry, spawnApp, mpure, hq, hsp, ih]
      · simp [startAppsLoop, startLoopResults, startLoopTrace, hq, ih]

theorem startLoopResults_eq_map (env : Env) :
    ∀ apps : List ApplicationSpec,
      startLoopResults env apps =
        (apps.filter startQualifies).map (fun a => startOneAppResult env a) := by
  intro apps
  induction apps with
  | nil => simp [startLoopResults]
  | cons app rest ih =>
      by_cases hq : startQualifies app = true
      · simp [startLoopResults, List.filter_cons, hq, ih]
      · simp [startLoopResults, List.filter_cons, hq, ih]

theorem mem_startLoopTrace (env : Env) :
    ∀ (apps : List ApplicationSpec) (a : ApplicationSpec),
      a ∈ apps.filter startQualifies →
      Action.spawn a.startupCommand ∈ startLoopTrace env apps := by
  intro apps
  induction apps with
  | nil => simp
  | cons app rest ih =>
      intro a ha
      by_cases hq : startQualifies app = true
      · rw [List.filter_cons_of_pos hq] at ha
        rcases List.mem_cons.mp ha with h | h
        · simp [startLoopTrace, hq, h]
        · simp [startLoopTrace, hq]
          exact Or.inr (ih a h)
      · rw [List.filter_cons_of_neg (by simpa using hq)] at ha
        simp [startLoopTrace, hq]
        exact ih a ha

/-- **C9**: `startApplications` fails with the not-mounted error when the
container is not mounted, with the no-configuration error when no config
exists; otherwise it succeeds with one ordered result entry per enabled
application that has a startup command (in configuration order), a launch
is attempted for every such application regardless of other failures, and
an entry reports success exactly when its spawn succeeded. -/
theorem startApplications_spec (name : String) (env : Env) (s : St) :
    ((statusOf env s.files name).mounted = false →
      startApplications name env s =
        (Except.error ("Container " ++ name ++ " is not mounted"),
         { s with trace := s.trace ++ statusTrace env s.files name })) ∧
    ((statusOf env s.files name).mounted = true →
      (statusOf env s.files name).config = none →
      startApplications name env s =
        (Except.error ("No configuration found for container " ++ name),
         { s with trace := s.trace ++ statusTrace env s.files name })) ∧
    (∀ cfg, (statusOf env s.files name).mounted = true →
      (statusOf env s.files name).config = some cfg →
      (startApplications name env s).1 =
        Except.ok (OpResults.mk ((cfg.applications.filter startQualifies).map
          (fun a => startOneAppResult env a))) ∧
      (∀ a ∈ cfg.applications.filter startQualifies,
         Action.spawn a.startupCommand ∈ (startApplications name env s).2.trace) ∧
      (∀ a, (startOneAppResult env a).success = true ↔
         env.spawnOk a.startupCommand = Except.ok ())) := by
  refine ⟨?_, ?_, ?_⟩
  · intro hm
    simp [startApplications, run_bind, getContainerStatus_run, mthrow, hm]
  · intro hm hc
    simp [startApplications, run_bind, getContainerStatus_run, mthrow, hm, hc]
  · intro cfg hm hc
    have hrun : startApplications name env s =
        (Except.ok (OpResults.mk (startLoopResults env cfg.applications)),
         if (startLoopResults env cfg.applications).any (fun r => r.success) then
           { s with trace := s.trace ++ statusTrace env s.files name
                      ++ startLoopTrace env cfg.applications
                    interval := some name
                    lastActivity := setEntry s.lastActivity name env.now }
         else
           { s with trace := s.trace ++ statusTrace env s.files name
                      ++ startLoopTrace env cfg.applications }) := by
      by_cases hany : (startLoopResults env cfg.applications).any
          (fun r => r.success) = true
      · have hany2 : ∃ x ∈ startLoopResults env cfg.applications,
            x.success = true := by simpa [List.any_eq_true] using hany
        simp [startApplications, run_bind, getContainerStatus_run, hm, hc,
          startAppsLoop_run, startActivityMonitoringM, recordActivityM,
          mpure, hany, hany2]
      · have hany2 : ¬ ∃ x ∈ startLoopResults env cfg.applications,
            x.success = true := by simpa [List.any_eq_true] using hany
        simp [startApplications, run_bind, getContainerStatus_run, hm, hc,
          startAppsLoop_run, mpure, hany, hany2]
    refine ⟨?_, ?_, ?_⟩
    · simp [hrun, startLoopResults_eq_map]
    · intro a ha
      have hmem := mem_startLoopTrace env cfg.applications a ha
      by_cases hany : (startLoopResults env cfg.applications).any
          (fun r => r.success) = true <;>
        simp [hrun, hany, hmem]
    · intro a
      rcases hsp : env.spawnOk a.startupCommand with e | o
      · simp [startOneAppResult, hsp]
      · simp [startOneAppResult, hsp]

/-! ### Concrete two-application setup for the `startApplications` witness -/

def mkTwoAppCfg : Config :=
  { cfgName := "primary"
    applications :=
      [{ appName := "AppA", startupCommand := "runA", shutdownCommand := "stopA"
         logPath := "", enabled := true },
       { appName := "AppB", startupCommand := "runB", shutdownCommand := "stopB"
         logPath := "", enabled := true }]
    autoUnmountTimeout := some 15 }

def mkMountedEnv : Env :=
  { exec := fun c _ =>
      if c = lsMapperCmd (devName "primary") then Except.ok ""
      else if c = "mount" then
        Except.ok "/dev/mapper/primary_crypt on /mnt/encrypted/primary type ext4"
      else Except.error "sample failure"
    removeResult := fun _ => Except.ok ()
    readJSON := fun _ => Except.ok mkTwoAppCfg
    accessOk := fun _ => true
    statIsDir := fun _ => Except.ok true
    probe := Except.ok false
    spawnOk := fun c =>
      if c = "runA" then Except.error "spawn failure" else Except.ok ()
    now := 900000 }

def mkMountedSt : St :=
  { lastActivity := [], interval := none
    files := [containerFilePath "primary", configFilePath "primary"]
    trace := [] }

theorem startApplications_spec_witness :
    (statusOf mkMountedEnv mkMountedSt.files "primary").mounted = true ∧
    (statusOf mkMountedEnv mkMountedSt.files "primary").config = some mkTwoAppCfg ∧
    ((startApplications "primary" mkMountedEnv mkMountedSt).1 =
      Except.ok (OpResults.mk
        ((mkTwoAppCfg.applications.filter startQualifies).map
          (fun a => startOneAppResult mkMountedEnv a))) ∧
    (∀ a ∈ mkTwoAppCfg.applications.filter startQualifies,
       Action.spawn a.startupCommand ∈
         (startApplications "primary" mkMountedEnv mkMountedSt).2.trace) ∧
    (∀ a, (startOneAppResult mkMountedEnv a).success = true ↔
       mkMountedEnv.spawnOk a.startupCommand = Except.ok ())) :=
  ⟨by decide, by decide,
   (startApplications_spec "primary" mkMountedEnv mkMountedSt).2.2 mkTwoAppCfg
     (by decide) (by decide)⟩

/-! ### Helper lemmas for the create/mount path -/

theorem swallow_exec_run (c : String) (inp : Option String) (env : Env) (s : St) :
    swallow (do
      let _ ← execCmd c inp
      mpure ()) env s
      = (Except.ok (), { s with trace := s.trace ++ [Action.exec c] }) := by
  rcases h : env.exec c inp with e | o <;>
    simp [swallow, mtry, mbind, run_bind, execCmd, mpure, h]

theorem mem_insertFile_self (p : String) (fs : List String) : p ∈ insertFile p fs := by
  by_cases h : p ∈ fs <;> simp [insertFile, h]

theorem mem_insertFile_of_mem (p q : String) (fs : List String) (h : q ∈ fs) :
    q ∈ insertFile p fs := by
  by_cases h2 : p ∈ fs <;> simp [insertFile, h2, h]

theorem leadsWith_append : ∀ xs ys : List Char, leadsWith xs (xs ++ ys) = true
  | [], _ => rfl
  | x :: xs, ys => by simp [leadsWith, leadsWith_append xs ys]

/-- The password is recoverable from the mount-open command line: two open
commands for the same loop device and mapping coincide only for equal
passwords. -/
theorem mountOpenCmd_inj (l d q r : String)
    (h : mountOpenCmd l d q = mountOpenCmd l d r) : q = r := by
  have hd := congrArg String.data h
  simp only [mountOpenCmd, String.data_append, List.append_assoc] at hd
  have h1 := List.append_cancel_left hd
  exact String.ext (List.append_cancel_right h1)

/-- Modelled from the spec: the behavior of the external tool chain (`dd`,
`losetup`, `cryptsetup`, `mkfs.ext4`, `mount`) for a backing file whose
encryption header is bound to password `p` — the creation steps succeed,
unlocking the volume succeeds for `p` and fails for every other password
(spec §4.1: `open` fails with `WrongPassword` when unlock fails), and the
non-mutating unlock test succeeds for `p`.  These tools are external
programs, not code of this repository. -/
def LuksRoundTripEnv (env : Env) (name p : String) (sizeGB : Nat) : Prop :=
  ∃ loopDev loopRaw : String,
    strTrim loopRaw = loopDev ∧
    env.exec (losetupShowCmd (containerFilePath name)) none = Except.ok loopRaw ∧
    (∃ o, env.exec (ddCmd (containerFilePath name) sizeGB) none = Except.ok o) ∧
    (∃ o, env.exec (luksFormatCmd loopDev) (some (p ++ "\n")) = Except.ok o) ∧
    (∃ o, env.exec (luksOpenCmd loopDev (devName name)) (some (p ++ "\n"))
        = Except.ok o) ∧
    (∃ o, env.exec (mkfsCmd (devName name)) none = Except.ok o) ∧
    (∃ o, env.exec (luksCloseCmd (devName name)) none = Except.ok o) ∧
    (∃ o, env.exec (losetupDetachCmd loopDev) none = Except.ok o) ∧
    (∃ o, env.exec (mountFsCmd (devName name) (mountPointPath name)) none
        = Except.ok o) ∧
    (∃ o, env.exec (mountOpenCmd loopDev (devName name) p) none = Except.ok o) ∧
    (∀ q, q ≠ p → ∃ m, env.exec (mountOpenCmd loopDev (devName name) q) none
        = Except.error m) ∧
    (∃ o, env.exec (verifyCmd (containerFilePath name) p) none = Except.ok o)

/-- An oracle in which unlocking with the (wrong) password `wrongpw` fails
with tool message `boom`. -/
def mkWrongPwEnv : Env :=
  { mkSampleEnv with exec := fun c _ =>
      if c = losetupShowCmd (containerFilePath "primary") then Except.ok "/dev/loop0"
      else if c = mountOpenCmd "/dev/loop0" (devName "primary") "wrongpw"
        then Except.error "boom"
      else Except.error "other failure" }

/-- An oracle in which unlocking succeeds but the filesystem `mount` step
fails with the same tool message `boom`. -/
def mkMountFailEnv : Env :=
  { mkSampleEnv with exec := fun c _ =>
      if c = losetupShowCmd (containerFilePath "primary") then Except.ok "/dev/loop0"
      else if c = mountOpenCmd "/dev/loop0" (devName "primary") "secret123"
        then Except.ok ""
      else if c = mountFsCmd (devName "primary") (mountPointPath "primary")
        then Except.error "boom"
      else Except.error "other failure" }

/-- **C2** (counterexample): `mountContainer` has no typed `WrongPassword`
error.  A wrong-password unlock failure and a mount-step tool failure with
the same underlying message produce literally identical error values
(`"Failed to mount container: boom"`), so the wrong-password failure is
not distinguishable as `WrongPassword` — it is the generic wrapped
tool-failure form. -/
theorem mount_wrong_password_untyped_counterexample :
    (mountContainer "primary" "wrongpw" mkWrongPwEnv mkFileSt).1
      = Except.error "Failed to mount container: boom" ∧
    (mountContainer "primary" "secret123" mkMountFailEnv mkFileSt).1
      = Except.error "Failed to mount container: boom" :=
  ⟨rfl, rfl⟩

/-- **C2** (amended): under the modelled LUKS tool semantics binding the
container to password `p`, `createContainer` with `p` succeeds, a
subsequent `mountContainer` with `p` succeeds, `verifyContainerPassword`
with `p` returns `true`, and `mountContainer` with any `q ≠ p` fails — but
with the generic wrapped error `"Failed to mount container: <tool
message>"` (the `ToolFailure` form), not with a typed `WrongPassword`
error. -/
theorem create_mount_verify_roundtrip (name p : String) (sizeGB : Nat)
    (env : Env) (s : St)
    (hsem : LuksRoundTripEnv env name p sizeGB)
    (hnx : containerFilePath name ∉ s.files)
    (hsilly : mountPointPath name ++ "/sillytavern" ∈ s.files) :
    (createContainer name p sizeGB env s).1 =
      Except.ok (CreateResult.mk true
        ("Container " ++ name ++ " created successfully") name) ∧
    (mountContainer name p env (createContainer name p sizeGB env s).2).1 =
      Except.ok (MountResult.mk true
        ("Container " ++ name ++ " mounted successfully")
        (some (mountPointPath name))) ∧
    (verifyContainerPassword name p env
        (mountContainer name p env (createContainer name p sizeGB env s).2).2).1 =
      Except.ok true ∧
    (∀ q, q ≠ p → ∃ m,
      (mountContainer name q env (createContainer name p sizeGB env s).2).1 =
        Except.error ("Failed to mount container: " ++ m)) := by
  obtain ⟨loopDev, loopRaw, htrim, hls, ⟨o1, hdd⟩, ⟨o2, hfmt⟩, ⟨o3, hopn⟩,
    ⟨o4, hmkfs⟩, ⟨o5, hcls⟩, ⟨o6, hdet⟩, ⟨o7, hmnt⟩, ⟨o8, hopenp⟩, hopenq,
    ⟨o9, hver⟩⟩ := hsem
  have hcreate : createContainer name p sizeGB env s =
      (Except.ok (CreateResult.mk true
          ("Container " ++ name ++ " created successfully") name),
       { s with
           files := insertFile (configFilePath name)
             (insertFile (containerFilePath name) s.files)
           trace := s.trace ++
             [Action.exec (luksCloseCmd (devName name)),
              Action.exec (ddCmd (containerFilePath name) sizeGB),
              Action.exec (losetupShowCmd (containerFilePath name)),
              Action.exec (luksFormatCmd loopDev),
              Action.exec (luksOpenCmd loopDev (devName name)),
              Action.exec (mkfsCmd (devName name)),
              Action.exec (luksCloseCmd (devName name)),
              Action.exec (losetupDetachCmd loopDev),
              Action.writeJSON (configFilePath name)] }) := by
    simp [createContainer, run_bind, fsPathExists, hnx, swallow_exec_run,
      execCmd, fsCreateFile, fsWriteJSON, mtry, mpure, hdd, hls, htrim, hfmt,
      hopn, hmkfs, hcls, hdet]
  have hmemc : containerFilePath name ∈
      insertFile (configFilePath name)
        (insertFile (containerFilePath name) s.files) :=
    mem_insertFile_of_mem _ _ _ (mem_insertFile_self _ _)
  have hsilly1 : mountPointPath name ++ "/sillytavern" ∈
      insertFile (configFilePath name)
        (insertFile (containerFilePath name) s.files) :=
    mem_insertFile_of_mem _ _ _ (mem_insertFile_of_mem _ _ _ hsilly)
  have hsilly2 : mountPointPath name ++ "/sillytavern" ∈
      insertFile (mountPointPath name)
        (insertFile (configFilePath name)
          (insertFile (containerFilePath name) s.files)) :=
    mem_insertFile_of_mem _ _ _ hsilly1
  refine ⟨by simp [hcreate], ?_, ?_, ?_⟩
  · rw [hcreate]
    simp [mountContainer, run_bind, fsPathExists, hmemc, fsEnsureDir,
      swallow_exec_run, execCmd, mtry, mpure, hls, htrim, hopenp, hmnt,
      setupSillyTavern, hsilly2]
  · rw [hcreate]
    simp [mountContainer, run_bind, fsPathExists, hmemc, fsEnsureDir,
      swallow_exec_run, execCmd, mtry, mpure, hls, htrim, hopenp, hmnt,
      setupSillyTavern, hsilly2, verifyContainerPassword, attempt, hver,
      mem_insertFile_of_mem _ _ _ hmemc]
  · intro q hq
    obtain ⟨m, hbad⟩ := hopenq q hq
    refine ⟨m, ?_⟩
    rw [hcreate]
    simp [mountContainer, run_bind, fsPathExists, hmemc, fsEnsureDir,
      swallow_exec_run, execCmd, mtry, mthrow, mpure, hls, htrim, hbad]

/-- A concrete oracle realizing the modelled LUKS semantics for password
`secret123`: commands that embed a mount-open password (recognizable by
their `echo '` prefix) succeed only for the bound password; the remaining
tool invocations succeed. -/
def mkRoundTripExec (c : String) : Except JsError String :=
  if leadsWith "echo '".data c.data
    then (if c = mountOpenCmd "/dev/loop7" (devName "primary") "secret123"
      then Except.ok "" else Except.error "wrong password")
  else if c = ddCmd (containerFilePath "primary") 5 then Except.ok ""
  else if c = losetupShowCmd (containerFilePath "primary")
    then Except.ok "/dev/loop7"
  else if c = luksFormatCmd "/dev/loop7" then Except.ok ""
  else if c = luksOpenCmd "/dev/loop7" (devName "primary") then Except.ok ""
  else if c = mkfsCmd (devName "primary") then Except.ok ""
  else if c = luksCloseCmd (devName "primary") then Except.ok ""
  else if c = losetupDetachCmd "/dev/loop7" then Except.ok ""
  else if c = verifyCmd (containerFilePath "primary") "secret123"
    then Except.ok ""
  else if c = mountFsCmd (devName "primary") (mountPointPath "primary")
    then Except.ok ""
  else Except.error "tool failure"

def mkRoundTripEnv : Env :=
  { mkSampleEnv with exec := fun c _ => mkRoundTripExec c }

theorem mkRoundTripEnv_sem :
    LuksRoundTripEnv mkRoundTripEnv "primary" "secret123" 5 := by
  refine ⟨"/dev/loop7", "/dev/loop7", by decide, by decide, ⟨"", by decide⟩,
    ⟨"", by decide⟩, ⟨"", by decide⟩, ⟨"", by decide⟩, ⟨"", by decide⟩,
    ⟨"", by decide⟩, ⟨"", by decide⟩, ⟨"", by decide⟩, ?_, ⟨"", by decide⟩⟩
  intro q hq
  refine ⟨"wrong password", ?_⟩
  have hlw : leadsWith "echo '".data
      (mountOpenCmd "/dev/loop7" (devName "primary") q).data = true := by
    simp only [mountOpenCmd, String.data_append, List.append_assoc]
    exact leadsWith_append _ _
  show mkRoundTripEnv.exec (mountOpenCmd "/dev/loop7" (devName "primary") q) none
      = Except.error "wrong password"
  simp only [mkRoundTripEnv, mkSampleEnv, mkRoundTripExec]
  rw [if_pos hlw, if_neg (fun hc => hq (mountOpenCmd_inj _ _ _ _ hc))]

/-- The state in which the round-trip witness starts: no backing file yet,
but the application assets already present so that the first mount skips
provisioning. -/
def mkRtSt : St :=
  { lastActivity := [], interval := none
    files := [mountPointPath "primary" ++ "/sillytavern"], trace := [] }

theorem create_mount_verify_roundtrip_witness :
    LuksRoundTripEnv mkRoundTripEnv "primary" "secret123" 5 ∧
    containerFilePath "primary" ∉ mkRtSt.files ∧
    mountPointPath "primary" ++ "/sillytavern" ∈ mkRtSt.files ∧
    ((createContainer "primary" "secret123" 5 mkRoundTripEnv mkRtSt).1 =
      Except.ok (CreateResult.mk true
        ("Container " ++ "primary" ++ " created successfully") "primary") ∧
    (mountContainer "primary" "secret123" mkRoundTripEnv
        (createContainer "primary" "secret123" 5 mkRoundTripEnv mkRtSt).2).1 =
      Except.ok (MountResult.mk true
        ("Container " ++ "primary" ++ " mounted successfully")
        (some (mountPointPath "primary"))) ∧
    (verifyContainerPassword "primary" "secret123" mkRoundTripEnv
        (mountContainer "primary" "secret123" mkRoundTripEnv
          (createContainer "primary" "secret123" 5 mkRoundTripEnv mkRtSt).2).2).1 =
      Except.ok true ∧
    (∀ q, q ≠ "secret123" → ∃ m,
      (mountContainer "primary" q mkRoundTripEnv
          (createContainer "primary" "secret123" 5 mkRoundTripEnv mkRtSt).2).1 =
        Except.error ("Failed to mount container: " ++ m))) :=
  ⟨mkRoundTripEnv_sem, by decide, by decide,
   create_mount_verify_roundtrip "primary" "secret123" 5 mkRoundTripEnv mkRtSt
     mkRoundTripEnv_sem (by decide) (by decide)⟩

/-! ### The failed-create cleanup path -/

/-- The trace of the swallowed loop-device query/detach of the create
cleanup. -/
def queryDetachTrace (env : Env) (file : String) : List Action :=
  Action.exec (losetupQueryCmd file) ::
    match env.exec (losetupQueryCmd file) none with
    | Except.error _ => []
    | Except.ok out =>
        match loopDeviceOf out with
        | some l => [Action.exec (losetupDetachCmd l)]
        | none => []

theorem swallow_queryDetach_run (file : String) (env : Env) (s : St) :
    swallow (do
      let out ← execCmd (losetupQueryCmd file) none
      match loopDeviceOf out with
      | some l => do
          let _ ← execCmd (losetupDetachCmd l) none
          mpure ()
      | none => mpure ()) env s
      = (Except.ok (), { s with trace := s.trace ++ queryDetachTrace env file }) := by
  rcases hq : env.exec (losetupQueryCmd file) none with e | out
  · simp [swallow, mtry, run_bind, mbind, execCmd, mpure, queryDetachTrace, hq]
  · rcases hl : loopDeviceOf out with _ | l
    · simp [swallow, mtry, run_bind, mbind, execCmd, mpure, queryDetachTrace,
        hq, hl]
    · rcases hd : env.exec (losetupDetachCmd l) none with e2 | o2 <;>
        simp [swallow, mtry, run_bind, mbind, execCmd, mpure, queryDetachTrace,
          hq, hl, hd]

/-- Run of the create-cleanup handler when the partial backing file exists
and its removal succeeds. -/
theorem createCleanup_run_mem (name : String) (e : JsError) (env : Env) (s : St)
    (hmem : containerFilePath name ∈ s.files)
    (hrem : env.removeResult (containerFilePath name) = Except.ok ()) :
    createCleanup name e env s =
      (Except.error ("Failed to create container: " ++ e),
       { s with files := s.files.erase (containerFilePath name)
                trace := s.trace ++ Action.exec (luksCloseCmd (devName name)) ::
                  (queryDetachTrace env (containerFilePath name)
                    ++ [Action.remove (containerFilePath name)]) }) := by
  have main : ∀ ocl2 : Except JsError String,
      env.exec (luksCloseCmd (devName name)) none = ocl2 →
      createCleanup name e env s =
        (Except.error ("Failed to create container: " ++ e),
         { s with files := s.files.erase (containerFilePath name)
                  trace := s.trace ++ Action.exec (luksCloseCmd (devName name)) ::
                    (queryDetachTrace env (containerFilePath name)
                      ++ [Action.remove (containerFilePath name)]) }) := by
    intro ocl2 hcl0
    rcases hq : env.exec (losetupQueryCmd (containerFilePath name)) none
        with eq0 | out
    · rcases ocl2 with ecl | ocl <;>
        simp [createCleanup, run_bind, swallow, mbind, mtry, execCmd,
          fsPathExists, fsRemove, mthrow, mpure, queryDetachTrace, hcl0, hq,
          hmem, hrem]
    · rcases hl : loopDeviceOf out with _ | l
      · rcases ocl2 with ecl | ocl <;>
          simp [createCleanup, run_bind, swallow, mbind, mtry, execCmd,
            fsPathExists, fsRemove, mthrow, mpure, queryDetachTrace, hcl0, hq,
            hl, hmem, hrem]
      · rcases hd : env.exec (losetupDetachCmd l) none with ed | od <;>
          rcases ocl2 with ecl | ocl <;>
          simp [createCleanup, run_bind, swallow, mbind, mtry, execCmd,
            fsPathExists, fsRemove, mthrow, mpure, queryDetachTrace, hcl0, hq,
            hl, hd, hmem, hrem]
  exact main (env.exec (luksCloseCmd (devName name)) none) rfl

/-- Run of the create-cleanup handler when no partial backing file exists. -/
theorem createCleanup_run_notmem (name : String) (e : JsError) (env : Env)
    (s : St) (hnx : containerFilePath name ∉ s.files) :
    createCleanup name e env s =
      (Except.error ("Failed to create container: " ++ e),
       { s with trace := s.trace ++ [Action.exec (luksCloseCmd (devName name))] }) := by
  rcases hcl0 : env.exec (luksCloseCmd (devName name)) none with ecl | ocl <;>
    simp [createCleanup, run_bind, swallow, mbind, mtry, execCmd, fsPathExists,
      fsRemove, mthrow, mpure, hcl0, hnx]

/-- **C7**: `createContainer` fails with the already-exists error when the
backing file is present, leaving the state entirely untouched; and whenever
it returns an error starting from a state without the backing file (and
removal of the partial file is possible), no backing file remains
afterwards, and — provided the `dd` allocation had succeeded, so a partial
file existed — the cleanup attempted the mapping close (`cryptsetup
luksClose`), the loop-device query (`losetup -j`), and the removal of the
partial backing file. -/
theorem createContainer_already_exists_and_cleanup (name p : String)
    (sizeGB : Nat) (env : Env) (s : St) :
    (containerFilePath name ∈ s.files →
      createContainer name p sizeGB env s
        = (Except.error ("Container " ++ name ++ " already exists"), s)) ∧
    (containerFilePath name ∉ s.files →
      env.removeResult (containerFilePath name) = Except.ok () →
      ∀ e s', createContainer name p sizeGB env s = (Except.error e, s') →
        containerFilePath name ∉ s'.files ∧
        (∀ o, env.exec (ddCmd (containerFilePath name) sizeGB) none
            = Except.ok o →
          Action.exec (luksCloseCmd (devName name)) ∈ s'.trace ∧
          Action.exec (losetupQueryCmd (containerFilePath name)) ∈ s'.trace ∧
          Action.remove (containerFilePath name) ∈ s'.trace)) := by
  constructor
  · intro hmem
    simp [createContainer, run_bind, fsPathExists, mthrow, hmem]
  · intro hnx hrem e s' hrun
    have hsnd : (createContainer name p sizeGB env s).2 = s' := by rw [hrun]
    have hfst : (createContainer name p sizeGB env s).1 = Except.error e := by
      rw [hrun]
    rcases hdd : env.exec (ddCmd (containerFilePath name) sizeGB) none with edd | odd
    · refine ⟨?_, fun o ho => ?_⟩
      · rw [← hsnd]
        simp [createContainer, run_bind, fsPathExists, hnx, swallow_exec_run,
          execCmd, fsCreateFile, mtry, createCleanup_run_notmem, mpure, hdd]
      · simp [hdd] at ho
    · rcases hls : env.exec (losetupShowCmd (containerFilePath name)) none with els | ols
      · refine ⟨?_, fun o ho => ?_⟩ <;>
          (rw [← hsnd]
           simp [createContainer, run_bind, fsPathExists, hnx, insertFile,
             swallow_exec_run, execCmd, fsCreateFile, mtry,
             createCleanup_run_mem, queryDetachTrace, mpure, hdd, hls, hrem])
      · rcases hfmt : env.exec (luksFormatCmd (strTrim ols)) (some (p ++ "\n"))
            with ef | og
        · refine ⟨?_, fun o ho => ?_⟩ <;>
            (rw [← hsnd]
             simp [createContainer, run_bind, fsPathExists, hnx, insertFile,
               swallow_exec_run, execCmd, fsCreateFile, mtry,
               createCleanup_run_mem, queryDetachTrace, mpure, hdd, hls, hfmt,
               hrem])
        · rcases hopn : env.exec (luksOpenCmd (strTrim ols) (devName name))
              (some (p ++ "\n")) with eo | oo
          · refine ⟨?_, fun o ho => ?_⟩ <;>
              (rw [← hsnd]
               simp [createContainer, run_bind, fsPathExists, hnx, insertFile,
                 swallow_exec_run, execCmd, fsCreateFile, mtry,
                 createCleanup_run_mem, queryDetachTrace, mpure, hdd, hls, hfmt,
                 hopn, hrem])
          · rcases hmkfs : env.exec (mkfsCmd (devName name)) none with em | om
            · refine ⟨?_, fun o ho => ?_⟩ <;>
                (rw [← hsnd]
                 simp [createContainer, run_bind, fsPathExists, hnx, insertFile,
                   swallow_exec_run, execCmd, fsCreateFile, mtry,
                   createCleanup_run_mem, queryDetachTrace, mpure, hdd, hls,
                   hfmt, hopn, hmkfs, hrem])
            · rcases hcls : env.exec (luksCloseCmd (devName name)) none with ec | oc
              · refine ⟨?_, fun o ho => ?_⟩ <;>
                  (rw [← hsnd]
                   simp [createContainer, run_bind, fsPathExists, hnx, insertFile,
                     swallow_exec_run, execCmd, fsCreateFile, mtry,
                     createCleanup_run_mem, queryDetachTrace, mpure, hdd, hls,
                     hfmt, hopn, hmkfs, hcls, hrem])
              · rcases hdet : env.exec (losetupDetachCmd (strTrim ols)) none
                    with ed | od
                · refine ⟨?_, fun o ho => ?_⟩ <;>
                    (rw [← hsnd]
                     simp [createContainer, run_bind, fsPathExists, hnx,
                       insertFile, swallow_exec_run, execCmd, fsCreateFile, mtry,
                       createCleanup_run_mem, queryDetachTrace, mpure, hdd, hls,
                       hfmt, hopn, hmkfs, hcls, hdet, hrem])
                · exfalso
                  simp [createContainer, run_bind, fsPathExists, hnx, insertFile,
                    swallow_exec_run, execCmd, fsCreateFile, fsWriteJSON, mtry,
                    mpure, hdd, hls, hfmt, hopn, hmkfs, hcls, hdet] at hfst

/-- An oracle in which the `dd` allocation succeeds but the subsequent
loop-device attach fails, while file removal works. -/
def mkCreateFailEnv : Env :=
  { mkSampleEnv with
      exec := fun c _ =>
        if c = ddCmd (containerFilePath "primary") 5 then Except.ok ""
        else Except.error "boom"
      removeResult := fun _ => Except.ok () }

theorem createContainer_already_exists_and_cleanup_witness :
    (containerFilePath "primary" ∈ mkFileSt.files ∧
      createContainer "primary" "secret123" 5 mkSampleEnv mkFileSt
        = (Except.error ("Container " ++ "primary" ++ " already exists"),
           mkFileSt)) ∧
    (containerFilePath "primary" ∉ mkEmptySt.files ∧
     mkCreateFailEnv.removeResult (containerFilePath "primary") = Except.ok () ∧
     (containerFilePath "primary" ∉
        (createContainer "primary" "secret123" 5 mkCreateFailEnv mkEmptySt).2.files ∧
      (∀ o, mkCreateFailEnv.exec (ddCmd (containerFilePath "primary") 5) none
          = Except.ok o →
        Action.exec (luksCloseCmd (devName "primary")) ∈
          (createContainer "primary" "secret123" 5 mkCreateFailEnv mkEmptySt).2.trace ∧
        Action.exec (losetupQueryCmd (containerFilePath "primary")) ∈
          (createContainer "primary" "secret123" 5 mkCreateFailEnv mkEmptySt).2.trace ∧
        Action.remove (containerFilePath "primary") ∈
          (createContainer "primary" "secret123" 5 mkCreateFailEnv mkEmptySt).2.trace))) :=
  ⟨⟨by decide,
    (createContainer_already_exists_and_cleanup "primary" "secret123" 5
        mkSampleEnv mkFileSt).1 (by decide)⟩,
   ⟨by decide, rfl,
    (createContainer_already_exists_and_cleanup "primary" "secret123" 5
        mkCreateFailEnv mkEmptySt).2 (by decide) rfl
      "Failed to create container: boom"
      (createContainer "primary" "secret123" 5 mkCreateFailEnv mkEmptySt).2
      (Prod.ext (by decide) rfl)⟩⟩

/-! ### The lenient deletion path -/

/-- The reified outcome of one `deleteContainer` removal step. -/
def removeStepVal (env : Env) (fs : List String) (p okMsg missMsg : String) :
    Except JsError String :=
  if p ∈ fs then
    match env.removeResult p with
    | Except.ok _ => Except.ok okMsg
    | Except.error e => Except.error e
  else Except.ok missMsg

/-- The file set after one `deleteContainer` removal step. -/
def removeStepFiles (env : Env) (fs : List String) (p : String) : List String :=
  if p ∈ fs then
    match env.removeResult p with
    | Except.ok _ => fs.erase p
    | Except.error _ => fs
  else fs

/-- The trace of one `deleteContainer` removal step. -/
def removeStepTrace (_env : Env) (fs : List String) (p : String) : List Action :=
  if p ∈ fs then [Action.remove p] else []

theorem removeStep_run (p okMsg missMsg : String) (env : Env) (s : St) :
    attempt (do
      let ex ← fsPathExists p
      if ex then do
        fsRemove p
        mpure okMsg
      else mpure missMsg) env s =
      (Except.ok (removeStepVal env s.files p okMsg missMsg),
       { s with files := removeStepFiles env s.files p
                trace := s.trace ++ removeStepTrace env s.files p }) := by
  by_cases hmem : p ∈ s.files
  · rcases hr : env.removeResult p with er | og <;>
      simp [attempt, run_bind, fsPathExists, fsRemove, mpure, removeStepVal,
        removeStepFiles, removeStepTrace, hmem, hr]
  · simp [attempt, run_bind, fsPathExists, fsRemove, mpure, removeStepVal,
      removeStepFiles, removeStepTrace, hmem]

theorem attempt_unmount_run (name : String) (env : Env) (s : St) :
    attempt (unmountContainer name) env s =
      (Except.ok (Except.ok (unmountValue name)),
       { stopState env s name with
           trace := (stopState env s name).trace ++ unmountTrace env name }) := by
  simp [attempt, unmountContainer_run]

/-- `deleteContainer` always returns a success record whose first detail
reports the unmount step. -/
theorem deleteContainer_total (name : String) (env : Env) (s : St) :
    ∃ r s₂, deleteContainer name env s = (Except.ok r, s₂) ∧
      r.success = true ∧ r.details.head? = some "Container unmounted" := by
  rcases hv2 : removeStepVal env
      ({ stopState env s name with
           trace := (stopState env s name).trace ++ unmountTrace env name }).files
      (containerFilePath name) "Container file deleted"
      "Container file not found (already deleted)" with e2 | m2
  · have hrun : deleteContainer name env s =
        (Except.ok (DeleteResult.mk true
            ("Container " ++ name ++ " cleanup completed (with issues)")
            ["Container unmounted"] (some e2)), (deleteContainer name env s).2) := by
      have h1 : (deleteContainer name env s).1 =
          Except.ok (DeleteResult.mk true
            ("Container " ++ name ++ " cleanup completed (with issues)")
            ["Container unmounted"] (some e2)) := by
        simp [deleteContainer, run_bind, attempt_unmount_run, removeStep_run,
          mpure, hv2]
      exact Prod.ext h1 rfl
    exact ⟨_, _, hrun, rfl, rfl⟩
  · rcases hv3 : removeStepVal env
        (removeStepFiles env ({ stopState env s name with
           trace := (stopState env s name).trace ++ unmountTrace env name }).files
          (containerFilePath name))
        (configFilePath name) "Configuration deleted"
        "Configuration not found (already deleted)" with e3 | m3
    · have hrun : deleteContainer name env s =
          (Except.ok (DeleteResult.mk true
              ("Container " ++ name ++ " cleanup completed (with issues)")
              ["Container unmounted", m2] (some e3)),
           (deleteContainer name env s).2) := by
        have h1 : (deleteContainer name env s).1 =
            Except.ok (DeleteResult.mk true
              ("Container " ++ name ++ " cleanup completed (with issues)")
              ["Container unmounted", m2] (some e3)) := by
          simp [deleteContainer, run_bind, attempt_unmount_run, removeStep_run,
            mpure, hv2, hv3]
        exact Prod.ext h1 rfl
      exact ⟨_, _, hrun, rfl, rfl⟩
    · rcases hv4 : removeStepVal env
          (removeStepFiles env
            (removeStepFiles env ({ stopState env s name with
           trace := (stopState env s name).trace ++ unmountTrace env name }).files
              (containerFilePath name))
            (configFilePath name))
          (mountPointPath name) "Mount point removed"
          "Mount point not found (already removed)" with e4 | m4
      · have hrun : deleteContainer name env s =
            (Except.ok (DeleteResult.mk true
                ("Container " ++ name ++ " cleanup completed (with issues)")
                ["Container unmounted", m2, m3] (some e4)),
             (deleteContainer name env s).2) := by
          have h1 : (deleteContainer name env s).1 =
              Except.ok (DeleteResult.mk true
                ("Container " ++ name ++ " cleanup completed (with issues)")
                ["Container unmounted", m2, m3] (some e4)) := by
            simp [deleteContainer, run_bind, attempt_unmount_run,
              removeStep_run, mpure, hv2, hv3, hv4]
          exact Prod.ext h1 rfl
        exact ⟨_, _, hrun, rfl, rfl⟩
      · have hrun : deleteContainer name env s =
            (Except.ok (DeleteResult.mk true
                ("Container " ++ name ++ " deleted successfully")
                ["Container unmounted", m2, m3, m4] none),
             (deleteContainer name env s).2) := by
          have h1 : (deleteContainer name env s).1 =
              Except.ok (DeleteResult.mk true
                ("Container " ++ name ++ " deleted successfully")
                ["Container unmounted", m2, m3, m4] none) := by
            simp [deleteContainer, run_bind, attempt_unmount_run,
              removeStep_run, mpure, hv2, hv3, hv4]
          exact Prod.ext h1 rfl
        exact ⟨_, _, hrun, rfl, rfl⟩

theorem stopState_files (env : Env) (s : St) (name : String) :
    (stopState env s name).files = s.files := by
  rcases h : (statusOf env s.files name).config <;> simp [stopState, h]

/-- **C8** (amended): deletion is lenient but sequential.  `deleteContainer`
always returns a success record whose first detail reports the unmount step
(the unmount step itself cannot abort deletion); when the container-file
removal fails, it returns success carrying the failure as a warning and the
steps completed so far — but the configuration and mount-point steps are
then not attempted (their removals do not occur); when every removal step
succeeds, all four steps run in order.  The DELETE route rejects with the
401 Invalid-password response — without invoking deletion — exactly when
password verification returns false; a verification that itself throws
yields a 500 error instead, and a successful verification always ends in a
successful deletion response. -/
theorem deleteContainer_lenient_spec (name p : String) (env : Env) (s : St)
    (em : JsError) :
    (∃ r s₂, deleteContainer name env s = (Except.ok r, s₂) ∧
       r.success = true ∧ r.details.head? = some "Container unmounted") ∧
    (containerFilePath name ∈ s.files →
      env.removeResult (containerFilePath name) = Except.error em →
      deleteContainer name env s =
        (Except.ok (DeleteResult.mk true
            ("Container " ++ name ++ " cleanup completed (with issues)")
            ["Container unmounted"] (some em)),
         { stopState env s name with
             trace := (stopState env s name).trace ++ unmountTrace env name
               ++ [Action.remove (containerFilePath name)] })) ∧
    (containerFilePath name ∈ s.files →
      configFilePath name ∈ s.files.erase (containerFilePath name) →
      mountPointPath name ∈
        (s.files.erase (containerFilePath name)).erase (configFilePath name) →
      env.removeResult (containerFilePath name) = Except.ok () →
      env.removeResult (configFilePath name) = Except.ok () →
      env.removeResult (mountPointPath name) = Except.ok () →
      deleteContainer name env s =
        (Except.ok (DeleteResult.mk true
            ("Container " ++ name ++ " deleted successfully")
            ["Container unmounted", "Container file deleted",
             "Configuration deleted", "Mount point removed"] none),
         { stopState env s name with
             files := ((s.files.erase (containerFilePath name)).erase
               (configFilePath name)).erase (mountPointPath name)
             trace := (stopState env s name).trace ++ unmountTrace env name
               ++ [Action.remove (containerFilePath name),
                   Action.remove (configFilePath name),
                   Action.remove (mountPointPath name)] })) ∧
    (p ≠ "" → containerFilePath "primary" ∉ s.files →
      deleteRoutePrimary (some p) env s =
        (Except.ok (RouteResp.serverError
            ("Container " ++ "primary" ++ " does not exist")), s)) ∧
    (p ≠ "" → containerFilePath "primary" ∈ s.files →
      env.exec (verifyCmd (containerFilePath "primary") p) none
        = Except.error em →
      deleteRoutePrimary (some p) env s =
        (Except.ok (RouteResp.unauthorized "Invalid password"),
         { s with trace := s.trace
             ++ [Action.exec (verifyCmd (containerFilePath "primary") p)] })) ∧
    (∀ o, p ≠ "" → containerFilePath "primary" ∈ s.files →
      env.exec (verifyCmd (containerFilePath "primary") p) none = Except.ok o →
      ∃ r s₂, deleteRoutePrimary (some p) env s
          = (Except.ok (RouteResp.okJson r), s₂) ∧ r.success = true) := by
  refine ⟨deleteContainer_total name env s, ?_, ?_, ?_, ?_, ?_⟩
  · intro hmem hrem
    simp [deleteContainer, run_bind, attempt_unmount_run, removeStep_run,
      removeStepVal, removeStepFiles, removeStepTrace, stopState_files, mpure,
      hmem, hrem]
  · intro hm1 hm2 hm3 hr1 hr2 hr3
    simp [deleteContainer, run_bind, attempt_unmount_run, removeStep_run,
      removeStepVal, removeStepFiles, removeStepTrace, stopState_files, mpure,
      hm1, hm2, hm3, hr1, hr2, hr3]
  · intro hp hnx
    simp [deleteRoutePrimary, hp, attempt, run_bind, verifyContainerPassword,
      fsPathExists, mthrow, mpure, hnx]
  · intro hp hmem hver
    simp [deleteRoutePrimary, hp, attempt, run_bind, verifyContainerPassword,
      fsPathExists, execCmd, mpure, hmem, hver]
  · intro o hp hmem hver
    obtain ⟨r, s₂, hrun, hsucc, _⟩ := deleteContainer_total "primary" env
      { s with trace := s.trace
          ++ [Action.exec (verifyCmd (containerFilePath "primary") p)] }
    refine ⟨r, s₂, ?_, hsucc⟩
    simp [deleteRoutePrimary, hp, attempt, run_bind, verifyContainerPassword,
      fsPathExists, execCmd, mpure, hmem, hver, hrun]

/-- An oracle in which removing the container backing file fails with a disk
error while every other removal would succeed. -/
def mkDelFailRemove (pth : String) : Except JsError Unit :=
  if pth = containerFilePath "primary" then Except.error "disk error"
  else Except.ok ()

def mkDelFailEnv : Env :=
  { mkSampleEnv with removeResult := mkDelFailRemove }

/-- A state in which the backing file, the configuration file and the mount
point of container `primary` all exist. -/
def mkAllSt : St :=
  { mkEmptySt with files :=
      [containerFilePath "primary", configFilePath "primary",
       mountPointPath "primary"] }

/-- **C8** (counterexample): when the backing-file removal fails,
`deleteContainer` does not attempt every remaining cleanup step: although the
configuration file exists and its removal would succeed, no removal of the
configuration file is ever issued and the file survives — yet the call still
reports success with a warning. -/
theorem deleteContainer_skips_later_steps_counterexample :
    (deleteContainer "primary" mkDelFailEnv mkAllSt).1
        = Except.ok (DeleteResult.mk true
            "Container primary cleanup completed (with issues)"
            ["Container unmounted"] (some "disk error")) ∧
    Action.remove (configFilePath "primary")
        ∉ (deleteContainer "primary" mkDelFailEnv mkAllSt).2.trace ∧
    configFilePath "primary"
        ∈ (deleteContainer "primary" mkDelFailEnv mkAllSt).2.files := by
  decide

/-- An oracle in which the password-verification unlock test for container
`primary` with password `pw` succeeds while every other command fails. -/
def mkVerOkEnv : Env :=
  { mkSampleEnv with exec := fun c _ =>
      if c = verifyCmd (containerFilePath "primary") "pw" then Except.ok ""
      else Except.error "sample failure" }

theorem deleteContainer_lenient_spec_witness :
    (deleteContainer "primary" mkDelFailEnv mkAllSt =
      (Except.ok (DeleteResult.mk true
          ("Container " ++ "primary" ++ " cleanup completed (with issues)")
          ["Container unmounted"] (some "disk error")),
       { stopState mkDelFailEnv mkAllSt "primary" with
           trace := (stopState mkDelFailEnv mkAllSt "primary").trace
             ++ unmountTrace mkDelFailEnv "primary"
             ++ [Action.remove (containerFilePath "primary")] })) ∧
    (deleteContainer "primary" mkSampleEnv mkAllSt =
      (Except.ok (DeleteResult.mk true
          ("Container " ++ "primary" ++ " deleted successfully")
          ["Container unmounted", "Container file deleted",
           "Configuration deleted", "Mount point removed"] none),
       { stopState mkSampleEnv mkAllSt "primary" with
           files := ((mkAllSt.files.erase (containerFilePath "primary")).erase
             (configFilePath "primary")).erase (mountPointPath "primary")
           trace := (stopState mkSampleEnv mkAllSt "primary").trace
             ++ unmountTrace mkSampleEnv "primary"
             ++ [Action.remove (containerFilePath "primary"),
                 Action.remove (configFilePath "primary"),
                 Action.remove (mountPointPath "primary")] })) ∧
    (deleteRoutePrimary (some "pw") mkSampleEnv mkEmptySt =
      (Except.ok (RouteResp.serverError
          ("Container " ++ "primary" ++ " does not exist")), mkEmptySt)) ∧
    (deleteRoutePrimary (some "pw") mkSampleEnv mkAllSt =
      (Except.ok (RouteResp.unauthorized "Invalid password"),
       { mkAllSt with trace := mkAllSt.trace
           ++ [Action.exec (verifyCmd (containerFilePath "primary") "pw")] })) ∧
    (∃ r s₂, deleteRoutePrimary (some "pw") mkVerOkEnv mkAllSt
        = (Except.ok (RouteResp.okJson r), s₂) ∧ r.success = true) :=
  ⟨(deleteContainer_lenient_spec "primary" "pw" mkDelFailEnv mkAllSt
      "disk error").2.1 (by decide) (by decide),
   (deleteContainer_lenient_spec "primary" "pw" mkSampleEnv mkAllSt
      "unused").2.2.1 (by decide) (by decide) (by decide) (by decide)
      (by decide) (by decide),
   (deleteContainer_lenient_spec "primary" "pw" mkSampleEnv mkEmptySt
      "unused").2.2.2.1 (by decide) (by decide),
   (deleteContainer_lenient_spec "primary" "pw" mkSampleEnv mkAllSt
      "sample failure").2.2.2.2.1 (by decide) (by decide) (by decide),
   (deleteContainer_lenient_spec "primary" "pw" mkVerOkEnv mkAllSt
      "unused").2.2.2.2.2 "" (by decide) (by decide) (by decide)⟩

end Tyler
